import Mathlib

/-!
Verification of the natural-language specification of the
`firebase-graph-template` repository against its source
(`src/functions/graph/graph_client.py` and
`src/functions/graph/authenticate.py`).

The Python code is shallowly embedded: the `GraphClient` instance becomes an
explicit `ClientState` record; every HTTP interaction is driven by a trace of
`Response` values (one per outbound request, in order); recursion in the
retry-as-control-flow pattern is made total with a fuel parameter (one unit of
fuel per attempt); Python exceptions become constructors of `PyOutcome`.
External collaborators (the `requests` library's JSON parsing, the `msal`
library's token acquisition, Python's builtin `int`) are modelled by explicit
data (`Response.jsonResult`, `AuthEnv`, `pyInt`).
-/

/-- Constant `MAX_RETRIES = 3` — module constant of `graph_client.py` (line 16). -/
def MAX_RETRIES : Nat := 3

/-- The lock-contention marker text searched for in response bodies
(`graph_client.py` lines 164 and 209). -/
def lockMarker : String := "EditModeCannotAcquireLockTooManyRequests"

/-- Check whether `needle` is a prefix of `hs`, on character lists. -/
def charsPrefix : List Char → List Char → Bool
  | [], _ => true
  | _ :: _, [] => false
  | a :: as, b :: bs => a == b && charsPrefix as bs

/-- Check whether `needle` occurs as a contiguous run inside the second
list. -/
def charsContains (needle : List Char) : List Char → Bool
  | [] => charsPrefix needle []
  | c :: rest => charsPrefix needle (c :: rest) || charsContains needle rest

/-- Model of `needle in haystack` on Python strings: substring
containment. -/
def strContains (haystack needle : String) : Bool :=
  charsContains needle.data haystack.data

/-- Drop leading whitespace characters. -/
def dropLeadingWs : List Char → List Char
  | [] => []
  | c :: rest => if c.isWhitespace then dropLeadingWs rest else c :: rest

/-- Model of Python `str.strip()`: remove whitespace from both ends. -/
def pyStripChars (cs : List Char) : List Char :=
  ((dropLeadingWs ((dropLeadingWs cs).reverse)).reverse)

/-- Accumulate the value of a run of decimal digits; any non-digit fails. -/
def digitsToNatAux : List Char → Nat → Option Nat
  | [], acc => some acc
  | c :: rest, acc =>
    if c.isDigit then digitsToNatAux rest (acc * 10 + (c.toNat - 48))
    else none

/-- Parse a non-empty run of decimal digits. -/
def digitsToNat : List Char → Option Nat
  | [] => none
  | c :: rest => digitsToNatAux (c :: rest) 0

/-- Model of Python's builtin `int : str -> int` on the string arguments the
code passes it (`int(response.headers.get('Retry-After', '30'))`): leading and
trailing whitespace is stripped, an optional single sign is allowed, and the
rest must be a non-empty run of decimal digits; anything else raises
`ValueError`, modelled as `none`. -/
def pyInt (s : String) : Option Int :=
  match pyStripChars s.data with
  | '-' :: rest => (digitsToNat rest).map (fun n => -(n : Int))
  | '+' :: rest => (digitsToNat rest).map (fun n => (n : Int))
  | t => (digitsToNat t).map (fun n => (n : Int))

/-- A JSON value, as produced by `response.json()`. (JSON numbers are
modelled as integers; no claim depends on fractional numbers.) -/
inductive JVal where
  | jnull : JVal
  | jbool : Bool → JVal
  | jnum : Int → JVal
  | jstr : String → JVal
  | jarr : List JVal → JVal
  | jobj : List (String × JVal) → JVal

/-- Dictionary lookup on the field list of a `JVal.jobj`. -/
def jlookup : List (String × JVal) → String → Option JVal
  | [], _ => none
  | (k, v) :: rest, key => if k == key then some v else jlookup rest key

/-- One HTTP response, as observed through the `requests` response object:
`status_code`, the `Retry-After` header (if present), the body `text`, and
what `response.json()` would return on that body (`Except.error` when the
body is not valid JSON, in which case `.json()` raises). -/
structure Response where
  status : Nat
  retryAfter : Option String
  text : String
  jsonResult : Except String JVal

/-- The mutable state of a `GraphClient` instance that the remote operations
read or write: `self.token` and `self.max_retries`. -/
structure ClientState where
  token : String
  max_retries : Nat

/-- One sub-request of the `$batch` body (`graph_client.py` lines 139-149). -/
structure BatchSubRequest where
  id : String
  method : String
  url : String
  /-- Field `"body": {"values": [row_data]}` — the row's values nested one level. -/
  bodyValues : List (List JVal)
  /-- Field `"headers": {"Content-Type": "application/json"}`. -/
  contentType : String

/-- The body of an outbound request, mirroring the dict literals passed as
`json=` in the source. -/
inductive ReqBody where
  /-- Body `{"requests": request_list}` posted to `$batch`. -/
  | batch : List BatchSubRequest → ReqBody
  /-- Body `{"values": rows}` posted to `/rows/add`. -/
  | values : List (List JVal) → ReqBody
  /-- Body `{"fields": fields}` posted to `/usedRange/sort/apply`. -/
  | sortFields : JVal → ReqBody
  /-- The `sendMail` payload. -/
  | email : String → String → String → Bool → ReqBody

/-- An outbound HTTP request: method, URL, headers, optional JSON body. -/
structure HttpRequest where
  method : String
  url : String
  headers : List (String × String)
  body : Option ReqBody

/-- Observable side effects of a run: each outbound request, and each
`time.sleep` call (tagged by which branch issued it). -/
inductive Event where
  | httpReq : HttpRequest → Event
  | sleepThrottle : Int → Event
  | sleepLock : Int → Event

/-- How a Python call ends: a return value, an explicit
`raise Exception(msg)`, or an uncaught builtin exception. `noResponse` and
`fuelOut` are artifacts of the trace/fuel embedding (the response trace or the
fuel ran out before the call ended). -/
inductive PyOutcome (α : Type) where
  | ok : α → PyOutcome α
  | raised : String → PyOutcome α
  | jsonDecodeError : String → PyOutcome α
  | valueError : String → PyOutcome α
  | keyError : String → PyOutcome α
  | attributeError : String → PyOutcome α
  | noResponse : PyOutcome α
  | fuelOut : PyOutcome α

/-- Result of running one operation: its outcome, the client state it leaves
behind, and the events it produced in order. -/
structure RunResult (α : Type) where
  outcome : PyOutcome α
  state : ClientState
  events : List Event

/-- Prepend events produced before a recursive retry. -/
def withEvents {α : Type} (es : List Event) (r : RunResult α) : RunResult α :=
  { r with events := es ++ r.events }

/-- The header dict built inline by the five non-mail operations
(and returned by `_auth_headers`): `Authorization: Bearer <token>` plus the
content-type marker. -/
def bearerHeaders (token : String) : List (String × String) :=
  [("Authorization", "Bearer " ++ token), ("Content-Type", "application/json")]
/-- One attempt's verdict inside the retry-as-control-flow pattern: either the
call ends now (with an outcome and the state it leaves), or the operation
re-invokes itself (`return self.<op>(...)`) after the listed sleep events,
from the given state. -/
inductive StepResult (α : Type) where
  | done : PyOutcome α → ClientState → StepResult α
  | retry : List Event → ClientState → StepResult α

/-- The retry-as-control-flow driver shared (textually) by the five
non-mail operations: each attempt issues the request built from the current
state, consumes the next response of the trace, and either finishes or
recurses on the rest of the trace.  One unit of fuel per attempt keeps the
embedding total; the Python original recurses without such a bound. -/
def runRetry {α : Type} (req : ClientState → HttpRequest)
    (step : ClientState → Response → StepResult α) :
    Nat → ClientState → List Response → RunResult α
  | 0, st, _ => ⟨.fuelOut, st, []⟩
  | fuel + 1, st, resps =>
    match resps with
    | [] => ⟨.noResponse, st, [.httpReq (req st)]⟩
    | r :: rest =>
      match step st r with
      | .done out st1 => ⟨out, st1, [.httpReq (req st)]⟩
      | .retry evs st1 =>
        withEvents (.httpReq (req st) :: evs) (runRetry req step fuel st1 rest)

/-- Message of the `ValueError` Python's `int` raises on a bad literal. -/
def valueErrorMsg : String := "invalid literal for int() with base 10"

/-- URL built by `get_excel_rows` (line 114). -/
def getExcelRowsUrl (itemId ws : String) : String :=
  "https://graph.microsoft.com/v1.0/me/drive/items/" ++ itemId ++
    "/workbook/worksheets/" ++ ws ++ "/usedRange"

/-- The request issued by `get_excel_rows` (lines 110-115): headers are built
inline from `self.token` (no call to `_ensure_token`/`_auth_headers`). -/
def getExcelRowsRequest (itemId ws : String) (st : ClientState) :
    HttpRequest :=
  ⟨"GET", getExcelRowsUrl itemId ws, bearerHeaders st.token, none⟩

/-- One attempt of `GraphClient.get_excel_rows` (lines 109-127): the body is
parsed as JSON (line 116) before any status inspection; a 429 with budget left
decrements the budget, parses `Retry-After` (default `"30"`), sleeps and
recurses (lines 117-122); any other non-200 raises (lines 124-125); on 200 the
`values` field is returned (line 126) with no budget reset. -/
def getExcelRowsStep (st : ClientState) (r : Response) : StepResult JVal :=
  match r.jsonResult with
  | .error e => .done (.jsonDecodeError e) st
  | .ok data =>
    if r.status == 429 && decide (0 < st.max_retries) then
      let st1 : ClientState := { st with max_retries := st.max_retries - 1 }
      match pyInt (r.retryAfter.getD "30") with
      | none => .done (.valueError valueErrorMsg) st1
      | some t => .retry [.sleepThrottle t] st1
    else if r.status != 200 then
      .done (.raised ("Failed to get Excel rows: " ++ r.text)) st
    else
      match data with
      | .jobj fields =>
        match jlookup fields "values" with
        | some v => .done (.ok v) st
        | none => .done (.keyError "values") st
      | _ => .done (.attributeError "values") st

/-- Embedding of `GraphClient.get_excel_rows` (lines 109-127). -/
def getExcelRows (fuel : Nat) (st : ClientState) (itemId ws : String)
    (resps : List Response) : RunResult JVal :=
  runRetry (getExcelRowsRequest itemId ws) getExcelRowsStep fuel st resps

/-- The sub-request list built by `batch_update_excel_rows` (lines 134-149):
the i-th input row (0-based `enumerate` index `id`) with row number `p.2.1`
and data `p.2.2` yields id `str(id+1)`, method `PATCH`, a URL addressing
`A{rowNumber}:{endCol}{rowNumber}`, and a body nesting the row's values one
level. -/
def buildBatchRequests (itemId ws : String)
    (rows : List (Nat × List JVal)) (endCol : String) : List BatchSubRequest :=
  rows.enum.map (fun p =>
    { id := toString (p.1 + 1)
      method := "PATCH"
      url := "/me/drive/items/" ++ itemId ++ "/workbook/worksheets('" ++ ws ++
        "')/range(address='A" ++ toString p.2.1 ++ ":" ++ endCol ++
        toString p.2.1 ++ "')"
      bodyValues := [p.2.2]
      contentType := "application/json" })

/-- The request issued by `batch_update_excel_rows` (lines 130-154): one POST
of all sub-requests to the `$batch` endpoint. -/
def batchUpdateRequest (itemId ws : String) (rows : List (Nat × List JVal))
    (endCol : String) (st : ClientState) : HttpRequest :=
  ⟨"POST", "https://graph.microsoft.com/v1.0/$batch", bearerHeaders st.token,
    some (.batch (buildBatchRequests itemId ws rows endCol))⟩

/-- One attempt of `GraphClient.batch_update_excel_rows` (lines 129-170): a
429 with budget left retries as in `get_excel_rows`; any other non-200 raises
(lines 161-162); then — after the budget has already been reset to
`MAX_RETRIES` (line 163) — a body containing the lock marker triggers a
10-second sleep and a retry (lines 164-168); otherwise the budget is reset
again (line 169) and the parsed body returned. -/
def batchUpdateStep (st : ClientState) (r : Response) : StepResult JVal :=
  if r.status == 429 && decide (0 < st.max_retries) then
    let st1 : ClientState := { st with max_retries := st.max_retries - 1 }
    match pyInt (r.retryAfter.getD "30") with
    | none => .done (.valueError valueErrorMsg) st1
    | some t => .retry [.sleepThrottle t] st1
  else if r.status != 200 then
    .done (.raised ("Failed to batch update Excel: " ++ r.text)) st
  else
    let st2 : ClientState := { st with max_retries := MAX_RETRIES }
    if strContains r.text lockMarker && decide (0 < st2.max_retries) then
      let st3 : ClientState := { st2 with max_retries := st2.max_retries - 1 }
      .retry [.sleepLock 10] st3
    else
      let st4 : ClientState := { st2 with max_retries := MAX_RETRIES }
      match r.jsonResult with
      | .error e => .done (.jsonDecodeError e) st4
      | .ok v => .done (.ok v) st4

/-- Embedding of `GraphClient.batch_update_excel_rows` (lines 129-170). -/
def batchUpdateExcelRows (fuel : Nat) (st : ClientState) (itemId ws : String)
    (rows : List (Nat × List JVal)) (endCol : String)
    (resps : List Response) : RunResult JVal :=
  runRetry (batchUpdateRequest itemId ws rows endCol) batchUpdateStep
    fuel st resps

/-- The request issued by `reorder_excel_rows` (lines 173-181). -/
def reorderRequest (itemId ws : String) (fields : JVal) (st : ClientState) :
    HttpRequest :=
  ⟨"POST",
    "https://graph.microsoft.com/v1.0/me/drive/items/" ++ itemId ++
      "/workbook/worksheets/" ++ ws ++ "/usedRange/sort/apply",
    bearerHeaders st.token, some (.sortFields fields)⟩

/-- One attempt of `GraphClient.reorder_excel_rows` (lines 172-191): 429
retry as elsewhere; non-200 raises; on 200 reset the budget and return the
parsed body. -/
def reorderStep (st : ClientState) (r : Response) : StepResult JVal :=
  if r.status == 429 && decide (0 < st.max_retries) then
    let st1 : ClientState := { st with max_retries := st.max_retries - 1 }
    match pyInt (r.retryAfter.getD "30") with
    | none => .done (.valueError valueErrorMsg) st1
    | some t => .retry [.sleepThrottle t] st1
  else if r.status != 200 then
    .done (.raised ("Failed to reorder Excel rows: " ++ r.text)) st
  else
    let st2 : ClientState := { st with max_retries := MAX_RETRIES }
    match r.jsonResult with
    | .error e => .done (.jsonDecodeError e) st2
    | .ok v => .done (.ok v) st2

/-- Embedding of `GraphClient.reorder_excel_rows` (lines 172-191). -/
def reorderExcelRows (fuel : Nat) (st : ClientState) (itemId ws : String)
    (fields : JVal) (resps : List Response) : RunResult JVal :=
  runRetry (reorderRequest itemId ws fields) reorderStep fuel st resps

/-- The request issued by `append_rows_to_table` (lines 194-202). -/
def appendRowsRequest (itemId tableName : String) (rows : List (List JVal))
    (st : ClientState) : HttpRequest :=
  ⟨"POST",
    "https://graph.microsoft.com/v1.0/me/drive/items/" ++ itemId ++
      "/workbook/tables/" ++ tableName ++ "/rows/add",
    bearerHeaders st.token, some (.values rows)⟩

/-- One attempt of `GraphClient.append_rows_to_table` (lines 193-217): a 429
with budget left retries (lines 203-208); then a body containing the lock
marker, with budget left, sleeps a fixed 10 seconds and retries regardless of
status (lines 209-213); then any status other than 201 raises (lines
214-215); on 201 the budget is reset and the parsed body returned. -/
def appendRowsStep (st : ClientState) (r : Response) : StepResult JVal :=
  if r.status == 429 && decide (0 < st.max_retries) then
    let st1 : ClientState := { st with max_retries := st.max_retries - 1 }
    match pyInt (r.retryAfter.getD "30") with
    | none => .done (.valueError valueErrorMsg) st1
    | some t => .retry [.sleepThrottle t] st1
  else if strContains r.text lockMarker && decide (0 < st.max_retries) then
    let st1 : ClientState := { st with max_retries := st.max_retries - 1 }
    .retry [.sleepLock 10] st1
  else if r.status != 201 then
    .done (.raised ("Failed to append rows: " ++ r.text)) st
  else
    let st2 : ClientState := { st with max_retries := MAX_RETRIES }
    match r.jsonResult with
    | .error e => .done (.jsonDecodeError e) st2
    | .ok v => .done (.ok v) st2

/-- Embedding of `GraphClient.append_rows_to_table` (lines 193-217). -/
def appendRowsToTable (fuel : Nat) (st : ClientState)
    (itemId tableName : String) (rows : List (List JVal))
    (resps : List Response) : RunResult JVal :=
  runRetry (appendRowsRequest itemId tableName rows) appendRowsStep
    fuel st resps

/-- The request issued by `list_tables` (lines 220-225). -/
def listTablesRequest (itemId : String) (st : ClientState) : HttpRequest :=
  ⟨"GET",
    "https://graph.microsoft.com/v1.0/me/drive/items/" ++ itemId ++
      "/workbook/tables",
    bearerHeaders st.token, none⟩

/-- One attempt of `GraphClient.list_tables` (lines 219-235): 429 retry as
elsewhere; non-200 raises; on 200 reset the budget and return the body's
`value` field, defaulting to an empty list. -/
def listTablesStep (st : ClientState) (r : Response) : StepResult JVal :=
  if r.status == 429 && decide (0 < st.max_retries) then
    let st1 : ClientState := { st with max_retries := st.max_retries - 1 }
    match pyInt (r.retryAfter.getD "30") with
    | none => .done (.valueError valueErrorMsg) st1
    | some t => .retry [.sleepThrottle t] st1
  else if r.status != 200 then
    .done (.raised ("Failed to list tables: " ++ r.text)) st
  else
    let st2 : ClientState := { st with max_retries := MAX_RETRIES }
    match r.jsonResult with
    | .error e => .done (.jsonDecodeError e) st2
    | .ok data =>
      match data with
      | .jobj fields =>
        .done (.ok ((jlookup fields "value").getD (.jarr []))) st2
      | _ => .done (.attributeError "get") st2

/-- Embedding of `GraphClient.list_tables` (lines 219-235). -/
def listTables (fuel : Nat) (st : ClientState) (itemId : String)
    (resps : List Response) : RunResult JVal :=
  runRetry (listTablesRequest itemId) listTablesStep fuel st resps

/-- What the `msal` library returns from one token-acquisition call: `none`
models Python `None`; inside a response, `access_token = none` models a dict
without an `"access_token"` key. -/
structure TokenResponse where
  access_token : Option String
  error_description : Option String

/-- The authentication environment visible to the Credential Manager at one
call: the result of `self.app.get_accounts()`, and what
`acquire_token_silent` / `acquire_token_interactive` would return if called
now. -/
structure AuthEnv where
  accounts : List String
  silent : Option TokenResponse
  interactive : Option TokenResponse

/-- Extracting the token from the final response, with the error message of
lines 71-74 / 94-97: `error_description` when available, else
`No token returned`; `No response` when the response is `None`. -/
def tokenFromResponse : Option TokenResponse → Except String String
  | none => .error "Authentication failed: No response"
  | some t =>
    match t.access_token with
    | some tok => .ok tok
    | none =>
      .error ("Authentication failed: " ++
        (t.error_description.getD "No token returned"))

/-- Embedding of `GraphClient._get_token_or_authenticate` (lines 63-77):
silent acquisition is attempted only when a cached account exists; when it
fails or lacks a token, interactive acquisition runs; a missing token there
raises. -/
def getTokenOrAuthenticate (env : AuthEnv) : Except String String :=
  let first : Option TokenResponse :=
    if env.accounts.isEmpty then none else env.silent
  let final : Option TokenResponse :=
    match first with
    | some t => if t.access_token.isSome then some t else env.interactive
    | none => env.interactive
  tokenFromResponse final

/-- Embedding of `GraphClient._ensure_token` (lines 79-100): with no cached
account it falls back to the full acquisition; otherwise silent first, then
interactive, raising when both fail; on success `self.token` is replaced by
the fresh token. -/
def ensureToken (env : AuthEnv) (st : ClientState) :
    Except String ClientState :=
  if env.accounts.isEmpty then
    (getTokenOrAuthenticate env).map (fun tok => { st with token := tok })
  else
    let final : Option TokenResponse :=
      match env.silent with
      | some t => if t.access_token.isSome then some t else env.interactive
      | none => env.interactive
    (tokenFromResponse final).map (fun tok => { st with token := tok })

/-- Embedding of `GraphClient._auth_headers` (lines 102-107): call
`_ensure_token`, then build the header pair from the (fresh) `self.token`. -/
def authHeaders (env : AuthEnv) (st : ClientState) :
    Except String (List (String × String) × ClientState) :=
  (ensureToken env st).map (fun st1 => (bearerHeaders st1.token, st1))

/-- Embedding of `GraphClient.send_email` (lines 237-255): headers come from
`_auth_headers` (so the token is refreshed at call time); the payload never
sets a `from` field; any status other than 202 or 200 raises with the status
code and the body text; there is no retry of any kind. -/
def sendEmail (env : AuthEnv) (st : ClientState)
    (recipient subject bodyText : String) (saveToSent : Bool)
    (resps : List Response) : RunResult Bool :=
  match authHeaders env st with
  | .error e => ⟨.raised e, st, []⟩
  | .ok (headers, st1) =>
    let req : HttpRequest :=
      ⟨"POST", "https://graph.microsoft.com/v1.0/me/sendMail", headers,
        some (.email recipient subject bodyText saveToSent)⟩
    match resps with
    | [] => ⟨.noResponse, st1, [.httpReq req]⟩
    | r :: _ =>
      if r.status == 202 || r.status == 200 then
        ⟨.ok true, st1, [.httpReq req]⟩
      else
        ⟨.raised ("Failed to send email: " ++ toString r.status ++ " " ++
          r.text), st1, [.httpReq req]⟩

/-- The deserialized `msal` token-cache state: either the fresh (empty) cache
a new `SerializableTokenCache()` holds, or a successfully deserialized one. -/
inductive MsalCache where
  | empty : MsalCache
  | loaded : String → MsalCache

/-- What the attempt to read the cache file yields: `none` when
`os.path.exists` is false; `some (.error e)` when opening/reading raises;
`some (.ok content)` when the file's text was read. -/
def CacheFileRead : Type := Option (Except String String)

/-- Embedding of the cache-loading block of `GraphClient.__init__`
(lines 37-46): an absent file is skipped; the `try` block reads the content
and, when its stripped form is non-empty, deserializes it; any exception from
reading or deserializing is caught (line 44) and the cache stays empty. -/
def loadTokenCache (file : CacheFileRead)
    (deserialize : String → Except String MsalCache) : MsalCache :=
  match file with
  | none => .empty
  | some readResult =>
    let attempt : Except String MsalCache :=
      match readResult with
      | .error e => .error e
      | .ok content =>
        if (pyStripChars content.data).isEmpty then .ok .empty
        else deserialize content
    match attempt with
    | .error _ => .empty
    | .ok c => c

/-- Embedding of `GraphClient.__init__` (lines 22-55) after field assignment:
load the cache (tolerating failures), build the `msal` application around it
(`envOf` models how the loaded cache determines the accounts and silent
results the library will report), and immediately acquire a token, failing
fast when impossible.  On success the client starts with the acquired token
and a full retry budget. -/
def graphClientInit (file : CacheFileRead)
    (deserialize : String → Except String MsalCache)
    (envOf : MsalCache → AuthEnv) : Except String ClientState :=
  let cache := loadTokenCache file deserialize
  (getTokenOrAuthenticate (envOf cache)).map
    (fun tok => { token := tok, max_retries := MAX_RETRIES })

/-- Count of lock-contention sleeps (`time.sleep(10)` in a lock branch)
among a run's events: one per lock-contention retry. -/
def lockSleepCount (es : List Event) : Nat :=
  es.countP (fun e => match e with | .sleepLock _ => true | _ => false)

/-- Count of throttling sleeps among a run's events: one per 429 retry. -/
def throttleSleepCount (es : List Event) : Nat :=
  es.countP (fun e => match e with | .sleepThrottle _ => true | _ => false)

/-- Generic invariant of the retry driver: when no retry step ever changes
the token and the request depends on the state only through the token, every
request a run issues is the one built from the initial state — for the five
non-mail operations this is the construction-time token, never a refreshed
one. -/
theorem runRetry_requests_fixed {α : Type} (req : ClientState → HttpRequest)
    (step : ClientState → Response → StepResult α)
    (hreq : ∀ s1 s2 : ClientState, s1.token = s2.token → req s1 = req s2)
    (htok : ∀ st r evs st1, step st r = .retry evs st1 → st1.token = st.token)
    (hevs : ∀ st r evs st1, step st r = .retry evs st1 →
      ∀ q, Event.httpReq q ∉ evs) :
    ∀ fuel st resps q,
      Event.httpReq q ∈ (runRetry req step fuel st resps).events →
      q = req st := by
  intro fuel
  induction fuel with
  | zero => intro st resps q hq; simp [runRetry] at hq
  | succ n ih =>
    intro st resps q hq
    match resps with
    | [] =>
      simp [runRetry] at hq
      simp [hq]
    | r :: rest =>
      rw [runRetry] at hq
      cases hstep : step st r with
      | done out st1 =>
        rw [hstep] at hq
        simp at hq
        simp [hq]
      | retry evs st1 =>
        rw [hstep] at hq
        simp [withEvents] at hq
        rcases hq with hq | hq | hq
        · simp [hq]
        · exact absurd hq (hevs st r evs st1 hstep q)
        · have := ih st1 rest q hq
          rw [this]
          exact hreq st1 st (htok st r evs st1 hstep)

/-- Generic invariant of the retry driver: when every successful attempt
leaves the budget at `MAX_RETRIES`, a run that returns a value leaves the
budget at `MAX_RETRIES`. -/
theorem runRetry_ok_resets {α : Type} (req : ClientState → HttpRequest)
    (step : ClientState → Response → StepResult α)
    (hok : ∀ st r st1 (a : α), step st r = .done (.ok a) st1 →
      st1.max_retries = MAX_RETRIES) :
    ∀ fuel st resps (a : α),
      (runRetry req step fuel st resps).outcome = .ok a →
      (runRetry req step fuel st resps).state.max_retries = MAX_RETRIES := by
  intro fuel
  induction fuel with
  | zero => intro st resps a ha; simp [runRetry] at ha
  | succ n ih =>
    intro st resps a ha
    match resps with
    | [] => simp [runRetry] at ha
    | r :: rest =>
      rw [runRetry] at ha ⊢
      cases hstep : step st r with
      | done out st1 =>
        rw [hstep] at ha
        simp at ha ⊢
        rw [ha] at hstep
        exact hok st r st1 a hstep
      | retry evs st1 =>
        rw [hstep] at ha
        simp [withEvents] at ha ⊢
        exact ih st1 rest a ha

/-- Generic invariant of the retry driver: when every retry step pays for its
lock sleeps out of the budget (the step's lock sleeps plus the remaining
budget never exceed the budget it started with), a whole run performs at most
`st.max_retries` lock-contention retries. -/
theorem runRetry_lock_bounded {α : Type} (req : ClientState → HttpRequest)
    (step : ClientState → Response → StepResult α)
    (hstep : ∀ st r evs st1, step st r = .retry evs st1 →
      lockSleepCount evs + st1.max_retries ≤ st.max_retries) :
    ∀ fuel st resps,
      lockSleepCount (runRetry req step fuel st resps).events ≤
        st.max_retries := by
  intro fuel
  induction fuel with
  | zero => intro st resps; simp [runRetry, lockSleepCount]
  | succ n ih =>
    intro st resps
    match resps with
    | [] => simp [runRetry, lockSleepCount]
    | r :: rest =>
      rw [runRetry]
      cases hstep1 : step st r with
      | done out st1 => simp [lockSleepCount]
      | retry evs st1 =>
        simp [withEvents, lockSleepCount, List.countP_cons,
          List.countP_append]
        have h1 := hstep st r evs st1 hstep1
        have h2 := ih st1 rest
        simp only [lockSleepCount] at h1 h2
        omega

/-- Generic accounting of the retry driver: when every retry step converts
one unit of budget into one throttle sleep and no lock sleep is ever issued,
and every successful attempt keeps the state unchanged, a successful run ends
with the initial budget minus one per throttle sleep — there is no reset.
This is the shape of `get_excel_rows`. -/
theorem runRetry_ok_no_reset {α : Type} (req : ClientState → HttpRequest)
    (step : ClientState → Response → StepResult α)
    (hretry : ∀ st r evs st1, step st r = .retry evs st1 →
      throttleSleepCount evs = 1 ∧ st1.max_retries + 1 = st.max_retries)
    (hok : ∀ st r st1 (a : α), step st r = .done (.ok a) st1 → st1 = st) :
    ∀ fuel st resps (a : α),
      (runRetry req step fuel st resps).outcome = .ok a →
      (runRetry req step fuel st resps).state.max_retries +
        throttleSleepCount (runRetry req step fuel st resps).events =
          st.max_retries := by
  intro fuel
  induction fuel with
  | zero => intro st resps a ha; simp [runRetry] at ha
  | succ n ih =>
    intro st resps a ha
    match resps with
    | [] => simp [runRetry] at ha
    | r :: rest =>
      rw [runRetry] at ha ⊢
      cases hstep : step st r with
      | done out st1 =>
        rw [hstep] at ha
        simp at ha ⊢
        rw [ha] at hstep
        have heq := hok st r st1 a hstep
        simp [throttleSleepCount, heq]
      | retry evs st1 =>
        rw [hstep] at ha
        simp [withEvents] at ha ⊢
        have h1 := hretry st r evs st1 hstep
        have h2 := ih st1 rest a ha
        simp only [throttleSleepCount] at h1 h2 ⊢
        simp [List.countP_cons, List.countP_append]
        omega

/-- Inversion of a `get_excel_rows` retry: it can only be a 429 throttle
retry — one throttle sleep, budget decremented, token untouched. -/
theorem getExcelRowsStep_retry_inv (st : ClientState) (r : Response)
    (evs : List Event) (st1 : ClientState)
    (h : getExcelRowsStep st r = .retry evs st1) :
    ∃ t, evs = [Event.sleepThrottle t] ∧
      st1 = { st with max_retries := st.max_retries - 1 } ∧
      0 < st.max_retries ∧ r.status = 429 := by
  unfold getExcelRowsStep at h
  repeat' split at h
  all_goals (try simp_all)
  exact ⟨_, h.1.symm⟩

/-- Inversion of a successful `get_excel_rows` attempt: the state — budget
included — is left exactly as it was. -/
theorem getExcelRowsStep_ok_inv (st : ClientState) (r : Response)
    (st1 : ClientState) (a : JVal)
    (h : getExcelRowsStep st r = .done (.ok a) st1) : st1 = st := by
  unfold getExcelRowsStep at h
  repeat' split at h
  all_goals simp_all

/-- Inversion of a `batch_update_excel_rows` retry: either a 429 throttle
retry, or a lock-contention retry — which can only fire on a 200 status and
leaves the budget at `MAX_RETRIES - 1` regardless of what it was before. -/
theorem batchUpdateStep_retry_inv (st : ClientState) (r : Response)
    (evs : List Event) (st1 : ClientState)
    (h : batchUpdateStep st r = .retry evs st1) :
    (∃ t, evs = [Event.sleepThrottle t] ∧
      st1 = { st with max_retries := st.max_retries - 1 } ∧
      0 < st.max_retries ∧ r.status = 429) ∨
    (evs = [Event.sleepLock 10] ∧
      st1 = { st with max_retries := MAX_RETRIES - 1 } ∧
      r.status = 200 ∧ strContains r.text lockMarker = true) := by
  unfold batchUpdateStep at h
  simp only [MAX_RETRIES] at h
  repeat' split at h
  all_goals (try simp_all [MAX_RETRIES])
  exact ⟨_, h.1.symm⟩

/-- Inversion of a successful `batch_update_excel_rows` attempt: the budget
has been reset to `MAX_RETRIES`. -/
theorem batchUpdateStep_ok_inv (st : ClientState) (r : Response)
    (st1 : ClientState) (a : JVal)
    (h : batchUpdateStep st r = .done (.ok a) st1) :
    st1.max_retries = MAX_RETRIES := by
  unfold batchUpdateStep at h
  simp only [MAX_RETRIES] at h
  repeat' split at h
  all_goals (try simp_all [MAX_RETRIES])
  all_goals (rw [← h.2])

/-- Inversion of a `reorder_excel_rows` retry: only the 429 throttle retry
exists. -/
theorem reorderStep_retry_inv (st : ClientState) (r : Response)
    (evs : List Event) (st1 : ClientState)
    (h : reorderStep st r = .retry evs st1) :
    ∃ t, evs = [Event.sleepThrottle t] ∧
      st1 = { st with max_retries := st.max_retries - 1 } ∧
      0 < st.max_retries ∧ r.status = 429 := by
  unfold reorderStep at h
  repeat' split at h
  all_goals (try simp_all)
  exact ⟨_, h.1.symm⟩

/-- Inversion of a successful `reorder_excel_rows` attempt: the budget has
been reset to `MAX_RETRIES`. -/
theorem reorderStep_ok_inv (st : ClientState) (r : Response)
    (st1 : ClientState) (a : JVal)
    (h : reorderStep st r = .done (.ok a) st1) :
    st1.max_retries = MAX_RETRIES := by
  unfold reorderStep at h
  repeat' split at h
  all_goals (try simp_all)
  all_goals (rw [← h.2])

/-- Inversion of an `append_rows_to_table` retry: either a 429 throttle
retry, or a lock-contention retry — the latter for any HTTP status, provided
the body carries the marker and the budget is positive; both decrement. -/
theorem appendRowsStep_retry_inv (st : ClientState) (r : Response)
    (evs : List Event) (st1 : ClientState)
    (h : appendRowsStep st r = .retry evs st1) :
    (∃ t, evs = [Event.sleepThrottle t] ∧
      st1 = { st with max_retries := st.max_retries - 1 } ∧
      0 < st.max_retries ∧ r.status = 429) ∨
    (evs = [Event.sleepLock 10] ∧
      st1 = { st with max_retries := st.max_retries - 1 } ∧
      0 < st.max_retries ∧ strContains r.text lockMarker = true) := by
  unfold appendRowsStep at h
  repeat' split at h
  all_goals (try simp_all)
  exact Or.inl ⟨_, h.1.symm⟩

/-- Inversion of a successful `append_rows_to_table` attempt: the budget has
been reset to `MAX_RETRIES`. -/
theorem appendRowsStep_ok_inv (st : ClientState) (r : Response)
    (st1 : ClientState) (a : JVal)
    (h : appendRowsStep st r = .done (.ok a) st1) :
    st1.max_retries = MAX_RETRIES := by
  unfold appendRowsStep at h
  repeat' split at h
  all_goals (try simp_all)
  all_goals (rw [← h.2])

/-- Inversion of a `list_tables` retry: only the 429 throttle retry
exists. -/
theorem listTablesStep_retry_inv (st : ClientState) (r : Response)
    (evs : List Event) (st1 : ClientState)
    (h : listTablesStep st r = .retry evs st1) :
    ∃ t, evs = [Event.sleepThrottle t] ∧
      st1 = { st with max_retries := st.max_retries - 1 } ∧
      0 < st.max_retries ∧ r.status = 429 := by
  unfold listTablesStep at h
  repeat' split at h
  all_goals (try simp_all)
  exact ⟨_, h.1.symm⟩

/-- Inversion of a successful `list_tables` attempt: the budget has been
reset to `MAX_RETRIES`. -/
theorem listTablesStep_ok_inv (st : ClientState) (r : Response)
    (st1 : ClientState) (a : JVal)
    (h : listTablesStep st r = .done (.ok a) st1) :
    st1.max_retries = MAX_RETRIES := by
  unfold listTablesStep at h
  repeat' split at h
  all_goals (try simp_all)
  all_goals (rw [← h.2])

/-- Unfolding of one driver attempt ending the call. -/
theorem runRetry_cons_done {α : Type} (req : ClientState → HttpRequest)
    (step : ClientState → Response → StepResult α) (fuel : Nat)
    (st : ClientState) (r : Response) (rest : List Response)
    (out : PyOutcome α) (st1 : ClientState) (h : step st r = .done out st1) :
    runRetry req step (fuel + 1) st (r :: rest) =
      ⟨out, st1, [.httpReq (req st)]⟩ := by
  simp [runRetry, h]

/-- Unfolding of one driver attempt that retries. -/
theorem runRetry_cons_retry {α : Type} (req : ClientState → HttpRequest)
    (step : ClientState → Response → StepResult α) (fuel : Nat)
    (st : ClientState) (r : Response) (rest : List Response)
    (evs : List Event) (st1 : ClientState) (h : step st r = .retry evs st1) :
    runRetry req step (fuel + 1) st (r :: rest) =
      withEvents (.httpReq (req st) :: evs)
        (runRetry req step fuel st1 rest) := by
  simp [runRetry, h]

/-- A response is a throttling response whose retry delay parses to `t`:
status 429 and `int(headers.get('Retry-After', '30')) = t`. -/
def isThrottle (r : Response) (t : Int) : Prop :=
  r.status = 429 ∧ pyInt (r.retryAfter.getD "30") = some t

/-- C5: for input rows `[(5, ...), (9, ...)]` and `endColumn = "D"` — and in
general for the i-th input row (1-based) with row number r —
`BatchUpdateRange` builds one PATCH sub-request with id `str(i)`, a URL
addressing `A{r}:{endColumn}{r}` (here `A5:D5` / `A9:D9` with ids `"1"` /
`"2"`), a body carrying the row's replacement values nested one level as a
single-row table, and submits them all as one batched POST to the `$batch`
endpoint (every request a run of `batch_update_excel_rows` issues is that
single batched request). -/
theorem claim_C5_batch_addressing :
    (∀ (itemId ws endCol : String) (rows : List (Nat × List JVal)) (i : Nat)
      (h : i < rows.length),
      (buildBatchRequests itemId ws rows endCol).length = rows.length ∧
      (buildBatchRequests itemId ws rows endCol)[i]? =
        some { id := toString (i + 1)
               method := "PATCH"
               url := "/me/drive/items/" ++ itemId ++
                 "/workbook/worksheets('" ++ ws ++ "')/range(address='A" ++
                 toString (rows.get ⟨i, h⟩).1 ++ ":" ++ endCol ++
                 toString (rows.get ⟨i, h⟩).1 ++ "')"
               bodyValues := [(rows.get ⟨i, h⟩).2]
               contentType := "application/json" }) ∧
    (∀ (v5 v9 : List JVal),
      buildBatchRequests "item" "Sheet1" [(5, v5), (9, v9)] "D" =
        [⟨"1", "PATCH",
          "/me/drive/items/item/workbook/worksheets('Sheet1')/range(address='A5:D5')",
          [v5], "application/json"⟩,
         ⟨"2", "PATCH",
          "/me/drive/items/item/workbook/worksheets('Sheet1')/range(address='A9:D9')",
          [v9], "application/json"⟩]) ∧
    (∀ (fuel : Nat) (st : ClientState) (itemId ws endCol : String)
      (rows : List (Nat × List JVal)) (resps : List Response) (q : HttpRequest),
      Event.httpReq q ∈
        (batchUpdateExcelRows fuel st itemId ws rows endCol resps).events →
      q = ⟨"POST", "https://graph.microsoft.com/v1.0/$batch",
            bearerHeaders st.token,
            some (.batch (buildBatchRequests itemId ws rows endCol))⟩) := by
  refine ⟨?_, ?_, ?_⟩
  · intro itemId ws endCol rows i h
    constructor
    · simp [buildBatchRequests]
    · unfold buildBatchRequests
      rw [List.getElem?_map, List.getElem?_enum]
      simp [List.getElem?_eq_getElem h]
  · intro v5 v9
    simp only [buildBatchRequests, List.enum, List.enumFrom, List.map]
    rfl
  · intro fuel st itemId ws endCol rows resps q hq
    have := runRetry_requests_fixed (batchUpdateRequest itemId ws rows endCol)
      batchUpdateStep
      (by intro s1 s2 htk; simp [batchUpdateRequest, htk])
      (by intro st' r evs st1 hstep
          rcases batchUpdateStep_retry_inv st' r evs st1 hstep with
            ⟨t, _, hst1, _, _⟩ | ⟨_, hst1, _, _⟩ <;> simp [hst1])
      (by intro st' r evs st1 hstep q'
          rcases batchUpdateStep_retry_inv st' r evs st1 hstep with
            ⟨t, hevs, _, _, _⟩ | ⟨hevs, _, _, _⟩ <;> simp [hevs])
      fuel st resps q hq
    simpa [batchUpdateRequest] using this

/-- Witness for C5 at the spec's concrete input. -/
theorem claim_C5_batch_addressing_witness :
    (buildBatchRequests "item" "Sheet1"
      [(5, [JVal.jstr "a"]), (9, [JVal.jstr "b"])] "D").length = 2 ∧
    (buildBatchRequests "item" "Sheet1"
      [(5, [JVal.jstr "a"]), (9, [JVal.jstr "b"])] "D")[1]? =
      some ⟨"2", "PATCH",
        "/me/drive/items/item/workbook/worksheets('Sheet1')/range(address='A9:D9')",
        [[JVal.jstr "b"]], "application/json"⟩ := by
  have h := claim_C5_batch_addressing.1 "item" "Sheet1" "D"
    [(5, [JVal.jstr "a"]), (9, [JVal.jstr "b"])] 1 (by decide)
  exact ⟨h.1, by rw [h.2]; rfl⟩

/-- C9: `get_excel_rows` parses the response body as JSON (line 116) before
inspecting the status code, so for any response whose body is not valid JSON
— including a 429 throttling response with retry budget left — the call ends
with the JSON decode error after the single request, with no retry, no sleep,
and no state change. -/
theorem claim_C9_json_before_status (st : ClientState) (itemId ws : String)
    (r : Response) (rest : List Response) (fuel : Nat) (e : String)
    (hj : r.jsonResult = .error e) :
    getExcelRows (fuel + 1) st itemId ws (r :: rest) =
      ⟨.jsonDecodeError e, st,
        [.httpReq (getExcelRowsRequest itemId ws st)]⟩ := by
  have hstep : getExcelRowsStep st r = .done (.jsonDecodeError e) st := by
    unfold getExcelRowsStep
    rw [hj]
  exact runRetry_cons_done _ _ fuel st r rest _ st hstep

/-- Witness for C9: a 429 response with budget left whose body is an HTML
error page; the retry path is never reached. -/
theorem claim_C9_json_before_status_witness :
    getExcelRows 9 ⟨"T", MAX_RETRIES⟩ "item" "ws"
        [⟨429, some "5", "<html>Too Many Requests</html>",
          .error "Expecting value: line 1 column 1 (char 0)"⟩] =
      ⟨.jsonDecodeError "Expecting value: line 1 column 1 (char 0)",
        ⟨"T", MAX_RETRIES⟩,
        [.httpReq (getExcelRowsRequest "item" "ws" ⟨"T", MAX_RETRIES⟩)]⟩ :=
  claim_C9_json_before_status ⟨"T", MAX_RETRIES⟩ "item" "ws"
    ⟨429, some "5", "<html>Too Many Requests</html>",
      .error "Expecting value: line 1 column 1 (char 0)"⟩ [] 8
    "Expecting value: line 1 column 1 (char 0)" rfl

/-- C10: in every throttling-retry branch, a 429 response (with budget left)
whose `Retry-After` value is not a decimal integer string makes the operation
raise `ValueError` from `int(...)` — after decrementing the budget — instead
of sleeping and retrying: the run ends at that request with no sleep event. -/
theorem claim_C10_retry_after_valueerror :
    (∀ (st : ClientState) (itemId ws : String) (r : Response)
      (rest : List Response) (fuel : Nat) (d : JVal),
      r.status = 429 → 0 < st.max_retries → r.jsonResult = .ok d →
      pyInt (r.retryAfter.getD "30") = none →
      getExcelRows (fuel + 1) st itemId ws (r :: rest) =
        ⟨.valueError valueErrorMsg,
          { st with max_retries := st.max_retries - 1 },
          [.httpReq (getExcelRowsRequest itemId ws st)]⟩) ∧
    (∀ (st : ClientState) (itemId ws endCol : String)
      (rows : List (Nat × List JVal)) (r : Response) (rest : List Response)
      (fuel : Nat),
      r.status = 429 → 0 < st.max_retries →
      pyInt (r.retryAfter.getD "30") = none →
      batchUpdateExcelRows (fuel + 1) st itemId ws rows endCol (r :: rest) =
        ⟨.valueError valueErrorMsg,
          { st with max_retries := st.max_retries - 1 },
          [.httpReq (batchUpdateRequest itemId ws rows endCol st)]⟩) ∧
    (∀ (st : ClientState) (itemId ws : String) (fields : JVal) (r : Response)
      (rest : List Response) (fuel : Nat),
      r.status = 429 → 0 < st.max_retries →
      pyInt (r.retryAfter.getD "30") = none →
      reorderExcelRows (fuel + 1) st itemId ws fields (r :: rest) =
        ⟨.valueError valueErrorMsg,
          { st with max_retries := st.max_retries - 1 },
          [.httpReq (reorderRequest itemId ws fields st)]⟩) ∧
    (∀ (st : ClientState) (itemId tableName : String)
      (rows : List (List JVal)) (r : Response) (rest : List Response)
      (fuel : Nat),
      r.status = 429 → 0 < st.max_retries →
      pyInt (r.retryAfter.getD "30") = none →
      appendRowsToTable (fuel + 1) st itemId tableName rows (r :: rest) =
        ⟨.valueError valueErrorMsg,
          { st with max_retries := st.max_retries - 1 },
          [.httpReq (appendRowsRequest itemId tableName rows st)]⟩) ∧
    (∀ (st : ClientState) (itemId : String) (r : Response)
      (rest : List Response) (fuel : Nat),
      r.status = 429 → 0 < st.max_retries →
      pyInt (r.retryAfter.getD "30") = none →
      listTables (fuel + 1) st itemId (r :: rest) =
        ⟨.valueError valueErrorMsg,
          { st with max_retries := st.max_retries - 1 },
          [.httpReq (listTablesRequest itemId st)]⟩) := by
  refine ⟨?_, ?_, ?_, ?_, ?_⟩
  · intro st itemId ws r rest fuel d hs hb hj ht
    exact runRetry_cons_done _ _ fuel st r rest _ _
      (by simp [getExcelRowsStep, hs, hb, hj, ht])
  · intro st itemId ws endCol rows r rest fuel hs hb ht
    exact runRetry_cons_done _ _ fuel st r rest _ _
      (by simp [batchUpdateStep, hs, hb, ht])
  · intro st itemId ws fields r rest fuel hs hb ht
    exact runRetry_cons_done _ _ fuel st r rest _ _
      (by simp [reorderStep, hs, hb, ht])
  · intro st itemId tableName rows r rest fuel hs hb ht
    exact runRetry_cons_done _ _ fuel st r rest _ _
      (by simp [appendRowsStep, hs, hb, ht])
  · intro st itemId r rest fuel hs hb ht
    exact runRetry_cons_done _ _ fuel st r rest _ _
      (by simp [listTablesStep, hs, hb, ht])

/-- Witness for C10: an HTTP-date `Retry-After` (permitted by HTTP) on a 429
response. -/
theorem claim_C10_retry_after_valueerror_witness :
    pyInt "Wed, 21 Oct 2015 07:28:00 GMT" = none ∧
    appendRowsToTable 7 ⟨"T", MAX_RETRIES⟩ "item" "Table1" [[]]
        [⟨429, some "Wed, 21 Oct 2015 07:28:00 GMT", "throttled",
          .error "Expecting value"⟩] =
      ⟨.valueError valueErrorMsg, ⟨"T", MAX_RETRIES - 1⟩,
        [.httpReq (appendRowsRequest "item" "Table1" [[]]
          ⟨"T", MAX_RETRIES⟩)]⟩ :=
  ⟨rfl,
    claim_C10_retry_after_valueerror.2.2.2.1 ⟨"T", MAX_RETRIES⟩ "item"
      "Table1" [[]]
      ⟨429, some "Wed, 21 Oct 2015 07:28:00 GMT", "throttled",
        .error "Expecting value"⟩ [] 6 rfl (by decide) rfl⟩

/-- C6: `append_rows_to_table` treats exactly status 201 as success — on a
lock-free, non-throttled response the call returns the parsed body when the
status is 201 and raises otherwise, so a 200 response raises — while
`send_email` treats exactly statuses 200 and 202 as success and raises on any
other status. -/
theorem claim_C6_status_discrimination :
    (∀ (fuel : Nat) (st : ClientState) (itemId tableName : String)
      (rows : List (List JVal)) (r : Response) (rest : List Response)
      (v : JVal),
      strContains r.text lockMarker = false → r.status ≠ 429 →
      r.jsonResult = .ok v →
      (appendRowsToTable (fuel + 1) st itemId tableName rows
          (r :: rest)).outcome =
        (if r.status = 201 then .ok v
         else .raised ("Failed to append rows: " ++ r.text))) ∧
    (∀ (fuel : Nat) (st : ClientState) (itemId tableName : String)
      (rows : List (List JVal)) (r : Response) (rest : List Response)
      (v : JVal),
      strContains r.text lockMarker = false → r.status = 200 →
      r.jsonResult = .ok v →
      (appendRowsToTable (fuel + 1) st itemId tableName rows
          (r :: rest)).outcome =
        .raised ("Failed to append rows: " ++ r.text)) ∧
    (∀ (env : AuthEnv) (st st1 : ClientState)
      (hdrs : List (String × String)) (a b c : String) (s : Bool)
      (r : Response) (rest : List Response),
      authHeaders env st = .ok (hdrs, st1) →
      (sendEmail env st a b c s (r :: rest)).outcome =
        (if r.status = 202 ∨ r.status = 200 then .ok true
         else .raised ("Failed to send email: " ++ toString r.status ++
           " " ++ r.text))) := by
  refine ⟨?_, ?_, ?_⟩
  · intro fuel st itemId tableName rows r rest v hm hs hj
    unfold appendRowsToTable
    by_cases h201 : r.status = 201
    · have hstep : appendRowsStep st r =
          .done (.ok v) { st with max_retries := MAX_RETRIES } := by
        simp [appendRowsStep, hm, hs, h201, hj]
      rw [runRetry_cons_done _ _ fuel st r rest _ _ hstep]
      simp [h201]
    · have hstep : appendRowsStep st r =
          .done (.raised ("Failed to append rows: " ++ r.text)) st := by
        simp [appendRowsStep, hm, hs, h201, hj]
      rw [runRetry_cons_done _ _ fuel st r rest _ _ hstep]
      simp [h201]
  · intro fuel st itemId tableName rows r rest v hm hs hj
    unfold appendRowsToTable
    have hstep : appendRowsStep st r =
        .done (.raised ("Failed to append rows: " ++ r.text)) st := by
      simp [appendRowsStep, hm, hs, hj]
    rw [runRetry_cons_done _ _ fuel st r rest _ _ hstep]
  · intro env st st1 hdrs a b c s r rest hauth
    by_cases hok : r.status = 202 ∨ r.status = 200
    · have : (r.status == 202 || r.status == 200) = true := by
        rcases hok with h | h <;> simp [h]
      simp [sendEmail, hauth, this, hok]
    · have : (r.status == 202 || r.status == 200) = false := by
        push_neg at hok
        simp [hok.1, hok.2]
      simp [sendEmail, hauth, this, hok]

/-- Witness for C6 at the two boundaries: a 200 response makes
`append_rows_to_table` raise, a 201 succeed; `send_email` succeeds on 202 and
raises on 201. -/
theorem claim_C6_status_discrimination_witness :
    (appendRowsToTable 5 ⟨"T", MAX_RETRIES⟩ "item" "Table1" [[]]
        [⟨200, none, "ok", .ok .jnull⟩]).outcome =
      .raised "Failed to append rows: ok" ∧
    (appendRowsToTable 5 ⟨"T", MAX_RETRIES⟩ "item" "Table1" [[]]
        [⟨201, none, "created", .ok .jnull⟩]).outcome = .ok .jnull ∧
    (sendEmail ⟨["u"], some ⟨some "F", none⟩, none⟩ ⟨"T", MAX_RETRIES⟩
        "r" "s" "b" true [⟨202, none, "accepted", .ok .jnull⟩]).outcome =
      .ok true ∧
    (sendEmail ⟨["u"], some ⟨some "F", none⟩, none⟩ ⟨"T", MAX_RETRIES⟩
        "r" "s" "b" true [⟨201, none, "odd", .ok .jnull⟩]).outcome =
      .raised "Failed to send email: 201 odd" := by
  refine ⟨?_, ?_, ?_, ?_⟩
  · rw [claim_C6_status_discrimination.2.1 4 ⟨"T", MAX_RETRIES⟩ "item"
      "Table1" [[]] ⟨200, none, "ok", .ok .jnull⟩ [] .jnull rfl rfl rfl]
    rfl
  · rw [claim_C6_status_discrimination.1 4 ⟨"T", MAX_RETRIES⟩ "item"
      "Table1" [[]] ⟨201, none, "created", .ok .jnull⟩ [] .jnull rfl
      (by decide) rfl]
    rfl
  · rw [claim_C6_status_discrimination.2.2 ⟨["u"], some ⟨some "F", none⟩,
      none⟩ ⟨"T", MAX_RETRIES⟩ ⟨"F", MAX_RETRIES⟩ (bearerHeaders "F")
      "r" "s" "b" true ⟨202, none, "accepted", .ok .jnull⟩ [] rfl]
    rfl
  · rw [claim_C6_status_discrimination.2.2 ⟨["u"], some ⟨some "F", none⟩,
      none⟩ ⟨"T", MAX_RETRIES⟩ ⟨"F", MAX_RETRIES⟩ (bearerHeaders "F")
      "r" "s" "b" true ⟨201, none, "odd", .ok .jnull⟩ [] rfl]
    rfl

/-- C8: when the session-state cache file is absent, or exists but its bytes
cannot be read or deserialized, construction proceeds exactly as with no
cached session: the loaded cache is the empty cache (the read failure is
caught, never re-raised — `loadTokenCache` is a total function into caches),
and `__init__` behaves identically to the absent-file case. -/
theorem claim_C8_corrupt_cache_tolerated :
    (∀ (deserialize : String → Except String MsalCache) (e : String),
      loadTokenCache (some (Except.error e)) deserialize = .empty) ∧
    (∀ (deserialize : String → Except String MsalCache) (s e : String),
      deserialize s = .error e →
      loadTokenCache (some (Except.ok s)) deserialize = .empty) ∧
    (∀ (deserialize : String → Except String MsalCache)
      (envOf : MsalCache → AuthEnv) (e : String),
      graphClientInit (some (Except.error e)) deserialize envOf =
        graphClientInit none deserialize envOf) ∧
    (∀ (deserialize : String → Except String MsalCache)
      (envOf : MsalCache → AuthEnv) (s e : String),
      deserialize s = .error e →
      graphClientInit (some (Except.ok s)) deserialize envOf =
        graphClientInit none deserialize envOf) := by
  have hload : ∀ (deserialize : String → Except String MsalCache) (s e : String),
      deserialize s = .error e →
      loadTokenCache (some (Except.ok s)) deserialize = .empty := by
    intro deserialize s e hd
    unfold loadTokenCache
    by_cases hstrip : (pyStripChars s.data).isEmpty = true
    · simp [hstrip]
    · simp [hstrip, hd]
  refine ⟨fun d e => rfl, hload, fun d envOf e => rfl, ?_⟩
  intro deserialize envOf s e hd
  unfold graphClientInit
  rw [hload deserialize s e hd]
  rfl

/-- Witness for C8: a cache file holding bytes the deserializer rejects. -/
theorem claim_C8_corrupt_cache_tolerated_witness :
    loadTokenCache (some (Except.ok "garbage-bytes"))
        (fun _ => Except.error "Expecting value") = .empty ∧
    graphClientInit (some (Except.ok "garbage-bytes"))
        (fun _ => Except.error "Expecting value")
        (fun _ => ⟨[], none, some ⟨some "T", none⟩⟩) =
      graphClientInit none (fun _ => Except.error "Expecting value")
        (fun _ => ⟨[], none, some ⟨some "T", none⟩⟩) :=
  ⟨claim_C8_corrupt_cache_tolerated.2.1 (fun _ => Except.error "Expecting value")
      "garbage-bytes" "Expecting value" rfl,
    claim_C8_corrupt_cache_tolerated.2.2.2
      (fun _ => Except.error "Expecting value")
      (fun _ => ⟨[], none, some ⟨some "T", none⟩⟩)
      "garbage-bytes" "Expecting value" rfl⟩

/-- Every request issued by a `get_excel_rows` run — retries included — is
the one built from the initial state's token. -/
theorem getExcelRows_requests (fuel : Nat) (st : ClientState)
    (itemId ws : String) (resps : List Response) (q : HttpRequest)
    (hq : Event.httpReq q ∈ (getExcelRows fuel st itemId ws resps).events) :
    q = getExcelRowsRequest itemId ws st :=
  runRetry_requests_fixed (getExcelRowsRequest itemId ws) getExcelRowsStep
    (by intro s1 s2 htk; simp [getExcelRowsRequest, htk])
    (by intro st' r evs st1 hstep
        obtain ⟨t, _, hst1, _, _⟩ := getExcelRowsStep_retry_inv st' r evs st1 hstep
        simp [hst1])
    (by intro st' r evs st1 hstep q'
        obtain ⟨t, hevs, _, _, _⟩ := getExcelRowsStep_retry_inv st' r evs st1 hstep
        simp [hevs])
    fuel st resps q hq

/-- Every request issued by a `batch_update_excel_rows` run is the single
batched request built from the initial state's token. -/
theorem batchUpdate_requests (fuel : Nat) (st : ClientState)
    (itemId ws endCol : String) (rows : List (Nat × List JVal))
    (resps : List Response) (q : HttpRequest)
    (hq : Event.httpReq q ∈
      (batchUpdateExcelRows fuel st itemId ws rows endCol resps).events) :
    q = batchUpdateRequest itemId ws rows endCol st :=
  runRetry_requests_fixed (batchUpdateRequest itemId ws rows endCol)
    batchUpdateStep
    (by intro s1 s2 htk; simp [batchUpdateRequest, htk])
    (by intro st' r evs st1 hstep
        rcases batchUpdateStep_retry_inv st' r evs st1 hstep with
          ⟨t, _, hst1, _, _⟩ | ⟨_, hst1, _, _⟩ <;> simp [hst1])
    (by intro st' r evs st1 hstep q'
        rcases batchUpdateStep_retry_inv st' r evs st1 hstep with
          ⟨t, hevs, _, _, _⟩ | ⟨hevs, _, _, _⟩ <;> simp [hevs])
    fuel st resps q hq

/-- Every request issued by a `reorder_excel_rows` run is the one built from
the initial state's token. -/
theorem reorder_requests (fuel : Nat) (st : ClientState)
    (itemId ws : String) (fields : JVal) (resps : List Response)
    (q : HttpRequest)
    (hq : Event.httpReq q ∈
      (reorderExcelRows fuel st itemId ws fields resps).events) :
    q = reorderRequest itemId ws fields st :=
  runRetry_requests_fixed (reorderRequest itemId ws fields) reorderStep
    (by intro s1 s2 htk; simp [reorderRequest, htk])
    (by intro st' r evs st1 hstep
        obtain ⟨t, _, hst1, _, _⟩ := reorderStep_retry_inv st' r evs st1 hstep
        simp [hst1])
    (by intro st' r evs st1 hstep q'
        obtain ⟨t, hevs, _, _, _⟩ := reorderStep_retry_inv st' r evs st1 hstep
        simp [hevs])
    fuel st resps q hq

/-- Every request issued by an `append_rows_to_table` run is the one built
from the initial state's token. -/
theorem appendRows_requests (fuel : Nat) (st : ClientState)
    (itemId tableName : String) (rows : List (List JVal))
    (resps : List Response) (q : HttpRequest)
    (hq : Event.httpReq q ∈
      (appendRowsToTable fuel st itemId tableName rows resps).events) :
    q = appendRowsRequest itemId tableName rows st :=
  runRetry_requests_fixed (appendRowsRequest itemId tableName rows)
    appendRowsStep
    (by intro s1 s2 htk; simp [appendRowsRequest, htk])
    (by intro st' r evs st1 hstep
        rcases appendRowsStep_retry_inv st' r evs st1 hstep with
          ⟨t, _, hst1, _, _⟩ | ⟨_, hst1, _, _⟩ <;> simp [hst1])
    (by intro st' r evs st1 hstep q'
        rcases appendRowsStep_retry_inv st' r evs st1 hstep with
          ⟨t, hevs, _, _, _⟩ | ⟨hevs, _, _, _⟩ <;> simp [hevs])
    fuel st resps q hq

/-- Every request issued by a `list_tables` run is the one built from the
initial state's token. -/
theorem listTables_requests (fuel : Nat) (st : ClientState)
    (itemId : String) (resps : List Response) (q : HttpRequest)
    (hq : Event.httpReq q ∈ (listTables fuel st itemId resps).events) :
    q = listTablesRequest itemId st :=
  runRetry_requests_fixed (listTablesRequest itemId) listTablesStep
    (by intro s1 s2 htk; simp [listTablesRequest, htk])
    (by intro st' r evs st1 hstep
        obtain ⟨t, _, hst1, _, _⟩ := listTablesStep_retry_inv st' r evs st1 hstep
        simp [hst1])
    (by intro st' r evs st1 hstep q'
        obtain ⟨t, hevs, _, _, _⟩ := listTablesStep_retry_inv st' r evs st1 hstep
        simp [hevs])
    fuel st resps q hq

/-- The single request a `send_email` call issues carries exactly the
headers `_auth_headers` returned. -/
theorem sendEmail_requests (env : AuthEnv) (st st1 : ClientState)
    (hdrs : List (String × String)) (a b c : String) (s : Bool)
    (resps : List Response) (q : HttpRequest)
    (hauth : authHeaders env st = .ok (hdrs, st1))
    (hq : Event.httpReq q ∈ (sendEmail env st a b c s resps).events) :
    q = ⟨"POST", "https://graph.microsoft.com/v1.0/me/sendMail", hdrs,
      some (.email a b c s)⟩ := by
  unfold sendEmail at hq
  rw [hauth] at hq
  cases resps with
  | nil => simpa using hq
  | cons r rest =>
    by_cases hst : (r.status == 202 || r.status == 200) = true
    · simp [hst] at hq
      exact hq
    · simp [hst] at hq
      exact hq

/-- Successful `_auth_headers` means `_ensure_token` succeeded and the
returned headers are built from the refreshed token. -/
theorem authHeaders_ok_inv (env : AuthEnv) (st st1 : ClientState)
    (hdrs : List (String × String))
    (hauth : authHeaders env st = .ok (hdrs, st1)) :
    ensureToken env st = .ok st1 ∧ hdrs = bearerHeaders st1.token := by
  unfold authHeaders at hauth
  cases he : ensureToken env st with
  | error e =>
    rw [he] at hauth
    simp [Except.map] at hauth
  | ok stE =>
    rw [he] at hauth
    simp [Except.map] at hauth
    obtain ⟨hh, hE⟩ := hauth
    rw [hE] at hh
    exact ⟨by rw [hE], hh.symm⟩


/-- C1 counterexample: with a cached account whose silent acquisition would
return the fresh token `"fresh"`, the Credential Manager's `_ensure_token`
yields `"fresh"` — yet `get_excel_rows`, called on a client whose stored
token is `"stale"`, sends its request with `Bearer stale`.  The outbound
request of this remote operation therefore does not carry a token
re-validated at call time, refuting the claim for the non-mail
operations. -/
theorem claim_C1_counterexample :
    ensureToken ⟨["user"], some ⟨some "fresh", none⟩, none⟩
        ⟨"stale", MAX_RETRIES⟩ = .ok ⟨"fresh", MAX_RETRIES⟩ ∧
    (getExcelRows 1 ⟨"stale", MAX_RETRIES⟩ "item" "ws"
        [⟨200, none, "ok", .ok (.jobj [("values", .jarr [])])⟩]).events =
      [.httpReq ⟨"GET", getExcelRowsUrl "item" "ws", bearerHeaders "stale",
        none⟩] ∧
    ("stale" : String) ≠ "fresh" :=
  ⟨rfl, rfl, by decide⟩

/-- C1 amended: only `send_email` obtains its headers through
`_auth_headers`, whose token `_ensure_token` refreshes at call time; the
other five remote operations build their headers inline from the token
captured at construction/last refresh (`self.token`), on every attempt,
retries included — no re-validation happens on those calls. -/
theorem claim_C1_token_freshness :
    (∀ (fuel : Nat) (st : ClientState) (itemId ws : String)
      (resps : List Response) (q : HttpRequest),
      Event.httpReq q ∈ (getExcelRows fuel st itemId ws resps).events →
      q.headers = bearerHeaders st.token) ∧
    (∀ (fuel : Nat) (st : ClientState) (itemId ws endCol : String)
      (rows : List (Nat × List JVal)) (resps : List Response)
      (q : HttpRequest),
      Event.httpReq q ∈
        (batchUpdateExcelRows fuel st itemId ws rows endCol resps).events →
      q.headers = bearerHeaders st.token) ∧
    (∀ (fuel : Nat) (st : ClientState) (itemId ws : String) (fields : JVal)
      (resps : List Response) (q : HttpRequest),
      Event.httpReq q ∈
        (reorderExcelRows fuel st itemId ws fields resps).events →
      q.headers = bearerHeaders st.token) ∧
    (∀ (fuel : Nat) (st : ClientState) (itemId tableName : String)
      (rows : List (List JVal)) (resps : List Response) (q : HttpRequest),
      Event.httpReq q ∈
        (appendRowsToTable fuel st itemId tableName rows resps).events →
      q.headers = bearerHeaders st.token) ∧
    (∀ (fuel : Nat) (st : ClientState) (itemId : String)
      (resps : List Response) (q : HttpRequest),
      Event.httpReq q ∈ (listTables fuel st itemId resps).events →
      q.headers = bearerHeaders st.token) ∧
    (∀ (env : AuthEnv) (st st1 : ClientState)
      (hdrs : List (String × String)) (a b c : String) (s : Bool)
      (resps : List Response) (q : HttpRequest),
      authHeaders env st = .ok (hdrs, st1) →
      Event.httpReq q ∈ (sendEmail env st a b c s resps).events →
      ensureToken env st = .ok st1 ∧
        q.headers = bearerHeaders st1.token) := by
  refine ⟨?_, ?_, ?_, ?_, ?_, ?_⟩
  · intro fuel st itemId ws resps q hq
    rw [getExcelRows_requests fuel st itemId ws resps q hq]
    rfl
  · intro fuel st itemId ws endCol rows resps q hq
    rw [batchUpdate_requests fuel st itemId ws endCol rows resps q hq]
    rfl
  · intro fuel st itemId ws fields resps q hq
    rw [reorder_requests fuel st itemId ws fields resps q hq]
    rfl
  · intro fuel st itemId tableName rows resps q hq
    rw [appendRows_requests fuel st itemId tableName rows resps q hq]
    rfl
  · intro fuel st itemId resps q hq
    rw [listTables_requests fuel st itemId resps q hq]
    rfl
  · intro env st st1 hdrs a b c s resps q hauth hq
    obtain ⟨hens, hh⟩ := authHeaders_ok_inv env st st1 hdrs hauth
    refine ⟨hens, ?_⟩
    rw [sendEmail_requests env st st1 hdrs a b c s resps q hauth hq]
    exact hh

/-- Witness for C1 (amended): on a concrete single-response run, the
request `get_excel_rows` issues carries the stored token, and the request
`send_email` issues carries the token `_ensure_token` just produced. -/
theorem claim_C1_token_freshness_witness :
    (getExcelRowsRequest "item" "ws" ⟨"stale", MAX_RETRIES⟩).headers =
      bearerHeaders "stale" ∧
    ensureToken ⟨["u"], some ⟨some "fresh", none⟩, none⟩
        ⟨"stale", MAX_RETRIES⟩ = .ok ⟨"fresh", MAX_RETRIES⟩ ∧
    (⟨"POST", "https://graph.microsoft.com/v1.0/me/sendMail",
        bearerHeaders "fresh",
        some (.email "r" "s" "b" true)⟩ : HttpRequest).headers =
      bearerHeaders "fresh" := by
  refine ⟨?_, ?_, ?_⟩
  · exact claim_C1_token_freshness.1 1 ⟨"stale", MAX_RETRIES⟩ "item" "ws"
      [⟨200, none, "ok", .ok (.jobj [("values", .jarr [])])⟩]
      (getExcelRowsRequest "item" "ws" ⟨"stale", MAX_RETRIES⟩)
      (by rw [show (getExcelRows 1 ⟨"stale", MAX_RETRIES⟩ "item" "ws"
            [⟨200, none, "ok", .ok (.jobj [("values", .jarr [])])⟩]).events =
          [Event.httpReq (getExcelRowsRequest "item" "ws"
            ⟨"stale", MAX_RETRIES⟩)] from rfl]
          exact List.mem_singleton.mpr rfl)
  · rfl
  · exact (claim_C1_token_freshness.2.2.2.2.2
      ⟨["u"], some ⟨some "fresh", none⟩, none⟩ ⟨"stale", MAX_RETRIES⟩
      ⟨"fresh", MAX_RETRIES⟩ (bearerHeaders "fresh") "r" "s" "b" true
      [⟨202, none, "ok", .ok .jnull⟩]
      ⟨"POST", "https://graph.microsoft.com/v1.0/me/sendMail",
        bearerHeaders "fresh", some (.email "r" "s" "b" true)⟩
      rfl
      (by rw [show (sendEmail ⟨["u"], some ⟨some "fresh", none⟩, none⟩
            ⟨"stale", MAX_RETRIES⟩ "r" "s" "b" true
            [⟨202, none, "ok", .ok .jnull⟩]).events =
          [Event.httpReq ⟨"POST",
            "https://graph.microsoft.com/v1.0/me/sendMail",
            bearerHeaders "fresh", some (.email "r" "s" "b" true)⟩] from rfl]
          exact List.mem_singleton.mpr rfl)).2

/-- Inversion of `Except.map` landing on `ok`. -/
theorem except_map_ok {α β ε : Type} (f : α → β) (r : Except ε α) (b : β)
    (h : r.map f = .ok b) : ∃ a, r = .ok a ∧ b = f a := by
  cases r with
  | error e => simp [Except.map] at h
  | ok a =>
    simp [Except.map] at h
    exact ⟨a, rfl, h.symm⟩

/-- `_ensure_token` only replaces the token: the retry budget field is
untouched. -/
theorem ensureToken_budget (env : AuthEnv) (st st1 : ClientState)
    (h : ensureToken env st = .ok st1) :
    st1.max_retries = st.max_retries := by
  unfold ensureToken at h
  split at h
  · obtain ⟨tok, _, hb⟩ := except_map_ok _ _ _ h
    rw [hb]
  · obtain ⟨tok, _, hb⟩ := except_map_ok _ _ _ h
    rw [hb]

/-- `send_email` never touches the retry budget. -/
theorem sendEmail_budget (env : AuthEnv) (st : ClientState)
    (a b c : String) (s : Bool) (resps : List Response) :
    (sendEmail env st a b c s resps).state.max_retries =
      st.max_retries := by
  unfold sendEmail
  cases hauth : authHeaders env st with
  | error e => rfl
  | ok p =>
    obtain ⟨hdrs, st1⟩ := p
    obtain ⟨hens, _⟩ := authHeaders_ok_inv env st st1 hdrs hauth
    have hb := ensureToken_budget env st st1 hens
    cases resps with
    | nil => simpa
    | cons r rest =>
      by_cases h : (r.status == 202 || r.status == 200) = true <;>
        simp [h, hb]

/-- C2 counterexample: `get_excel_rows` succeeds (status 200 after one
throttled retry) yet the client's retry budget is then 2, not the configured
maximum `MAX_RETRIES = 3` — `get_excel_rows` has no reset-on-success. -/
theorem claim_C2_counterexample :
    (getExcelRows 9 ⟨"T", MAX_RETRIES⟩ "item" "ws"
        [⟨429, some "5", "throttled", .ok (.jobj [])⟩,
         ⟨200, none, "ok", .ok (.jobj [("values", .jarr [.jstr "row"])])⟩]).outcome
      = .ok (.jarr [.jstr "row"]) ∧
    (getExcelRows 9 ⟨"T", MAX_RETRIES⟩ "item" "ws"
        [⟨429, some "5", "throttled", .ok (.jobj [])⟩,
         ⟨200, none, "ok", .ok (.jobj [("values", .jarr [.jstr "row"])])⟩]).state.max_retries
      = 2 ∧
    (2 : Nat) ≠ MAX_RETRIES :=
  ⟨rfl, rfl, by decide⟩

/-- C2 amended: after a successful call, `batch_update_excel_rows`,
`reorder_excel_rows`, `append_rows_to_table` and `list_tables` leave the
retry budget at its configured maximum `MAX_RETRIES`; but `get_excel_rows`
performs no reset — a successful run leaves the budget equal to what it
started with minus one per throttled retry taken — and `send_email` never
touches the budget at all. -/
theorem claim_C2_budget_reset :
    (∀ (fuel : Nat) (st : ClientState) (itemId ws endCol : String)
      (rows : List (Nat × List JVal)) (resps : List Response) (a : JVal),
      (batchUpdateExcelRows fuel st itemId ws rows endCol resps).outcome =
        .ok a →
      (batchUpdateExcelRows fuel st itemId ws rows endCol
        resps).state.max_retries = MAX_RETRIES) ∧
    (∀ (fuel : Nat) (st : ClientState) (itemId ws : String) (fields : JVal)
      (resps : List Response) (a : JVal),
      (reorderExcelRows fuel st itemId ws fields resps).outcome = .ok a →
      (reorderExcelRows fuel st itemId ws fields
        resps).state.max_retries = MAX_RETRIES) ∧
    (∀ (fuel : Nat) (st : ClientState) (itemId tableName : String)
      (rows : List (List JVal)) (resps : List Response) (a : JVal),
      (appendRowsToTable fuel st itemId tableName rows resps).outcome =
        .ok a →
      (appendRowsToTable fuel st itemId tableName
        rows resps).state.max_retries = MAX_RETRIES) ∧
    (∀ (fuel : Nat) (st : ClientState) (itemId : String)
      (resps : List Response) (a : JVal),
      (listTables fuel st itemId resps).outcome = .ok a →
      (listTables fuel st itemId resps).state.max_retries = MAX_RETRIES) ∧
    (∀ (fuel : Nat) (st : ClientState) (itemId ws : String)
      (resps : List Response) (a : JVal),
      (getExcelRows fuel st itemId ws resps).outcome = .ok a →
      (getExcelRows fuel st itemId ws resps).state.max_retries +
        throttleSleepCount (getExcelRows fuel st itemId ws resps).events =
          st.max_retries) ∧
    (∀ (env : AuthEnv) (st : ClientState) (a b c : String) (s : Bool)
      (resps : List Response),
      (sendEmail env st a b c s resps).state.max_retries =
        st.max_retries) := by
  refine ⟨?_, ?_, ?_, ?_, ?_, sendEmail_budget⟩
  · intro fuel st itemId ws endCol rows resps a
    exact runRetry_ok_resets _ _
      (fun st' r st1 a' h => batchUpdateStep_ok_inv st' r st1 a' h)
      fuel st resps a
  · intro fuel st itemId ws fields resps a
    exact runRetry_ok_resets _ _
      (fun st' r st1 a' h => reorderStep_ok_inv st' r st1 a' h)
      fuel st resps a
  · intro fuel st itemId tableName rows resps a
    exact runRetry_ok_resets _ _
      (fun st' r st1 a' h => appendRowsStep_ok_inv st' r st1 a' h)
      fuel st resps a
  · intro fuel st itemId resps a
    exact runRetry_ok_resets _ _
      (fun st' r st1 a' h => listTablesStep_ok_inv st' r st1 a' h)
      fuel st resps a
  · intro fuel st itemId ws resps a
    exact runRetry_ok_no_reset _ _
      (by intro st' r evs st1 hstep
          obtain ⟨t, hevs, hst1, hpos, _⟩ :=
            getExcelRowsStep_retry_inv st' r evs st1 hstep
          subst hevs
          subst hst1
          constructor
          · rfl
          · simp
            omega)
      (fun st' r st1 a' h => getExcelRowsStep_ok_inv st' r st1 a' h)
      fuel st resps a

/-- Witness for C2 (amended): `list_tables` succeeds after one throttled
retry and the budget is back at `MAX_RETRIES`; the same trace through
`get_excel_rows` (claim_C2 clause 5) leaves `2 + 1 = 3`. -/
theorem claim_C2_budget_reset_witness :
    (listTables 9 ⟨"T", MAX_RETRIES⟩ "item"
        [⟨429, some "5", "throttled", .error "nojson"⟩,
         ⟨200, none, "ok", .ok (.jobj [])⟩]).state.max_retries =
      MAX_RETRIES ∧
    (getExcelRows 9 ⟨"T", MAX_RETRIES⟩ "item" "ws"
        [⟨429, some "5", "throttled", .ok (.jobj [])⟩,
         ⟨200, none, "ok", .ok (.jobj [("values", .jarr [])])⟩]).state.max_retries +
      throttleSleepCount (getExcelRows 9 ⟨"T", MAX_RETRIES⟩ "item" "ws"
        [⟨429, some "5", "throttled", .ok (.jobj [])⟩,
         ⟨200, none, "ok", .ok (.jobj [("values", .jarr [])])⟩]).events =
      MAX_RETRIES :=
  ⟨claim_C2_budget_reset.2.2.2.1 9 ⟨"T", MAX_RETRIES⟩ "item"
      [⟨429, some "5", "throttled", .error "nojson"⟩,
       ⟨200, none, "ok", .ok (.jobj [])⟩] (.jarr []) rfl,
    claim_C2_budget_reset.2.2.2.2.1 9 ⟨"T", MAX_RETRIES⟩ "item" "ws"
      [⟨429, some "5", "throttled", .ok (.jobj [])⟩,
       ⟨200, none, "ok", .ok (.jobj [("values", .jarr [])])⟩] (.jarr [])
      rfl⟩

/-- A response body carrying the lock-contention marker inside a JSON error
object. -/
def lockBodyText : String :=
  "\x7b\"error\":\x7b\"code\":\"EditModeCannotAcquireLockTooManyRequests\"\x7d\x7d"

/-- The parsed form of `lockBodyText`. -/
def lockBodyJson : JVal :=
  .jobj [("error", .jobj
    [("code", .jstr "EditModeCannotAcquireLockTooManyRequests")])]

/-- C3 counterexample, on `batch_update_excel_rows`: (i) a run fed five
consecutive 200-status lock-contention responses performs five lock retries —
more than the whole `MAX_RETRIES = 3` budget — because the budget is reset to
its maximum right before the lock check; and (ii) a 503 response carrying the
very same lock marker is not retried at all but raised, because the lock
check sits after the non-200 raise — so batch lock retries are neither
budget-bounded nor independent of the HTTP status. -/
theorem claim_C3_counterexample :
    strContains lockBodyText lockMarker = true ∧
    lockSleepCount (batchUpdateExcelRows 6 ⟨"T", MAX_RETRIES⟩ "item" "ws"
        [] "D" (List.replicate 5 ⟨200, none, lockBodyText,
          .ok lockBodyJson⟩)).events = 5 ∧
    MAX_RETRIES = 3 ∧
    (batchUpdateExcelRows 6 ⟨"T", MAX_RETRIES⟩ "item" "ws" [] "D"
        [⟨503, none, lockBodyText, .ok lockBodyJson⟩]).outcome =
      .raised ("Failed to batch update Excel: " ++ lockBodyText) ∧
    lockSleepCount (batchUpdateExcelRows 6 ⟨"T", MAX_RETRIES⟩ "item" "ws"
        [] "D" [⟨503, none, lockBodyText, .ok lockBodyJson⟩]).events = 0 :=
  ⟨rfl, rfl, rfl, rfl, rfl⟩

/-- C3 amended: for `append_rows_to_table` the claim holds as stated — a
response whose body carries the lock marker, when the budget is positive and
the 429-throttle branch does not fire first, triggers a budget decrement, a
fixed 10-unit sleep and a full retry, for any HTTP status, and the number of
lock retries in any run is at most the starting budget.  For
`batch_update_excel_rows`, however, the lock check runs only after a non-200
raise and after the budget has been reset to its maximum: a 200 response with
the marker retries (with the 10-unit sleep) regardless of the remaining
budget, and a non-200, non-throttled response with the marker raises
instead of retrying. -/
theorem claim_C3_lock_retry :
    (∀ (fuel : Nat) (st : ClientState) (itemId tableName : String)
      (rows : List (List JVal)) (r : Response) (rest : List Response),
      strContains r.text lockMarker = true → 0 < st.max_retries →
      r.status ≠ 429 →
      appendRowsToTable (fuel + 1) st itemId tableName rows (r :: rest) =
        withEvents [.httpReq (appendRowsRequest itemId tableName rows st),
            .sleepLock 10]
          (appendRowsToTable fuel { st with max_retries := st.max_retries - 1 }
            itemId tableName rows rest)) ∧
    (∀ (fuel : Nat) (st : ClientState) (itemId tableName : String)
      (rows : List (List JVal)) (resps : List Response),
      lockSleepCount (appendRowsToTable fuel st itemId tableName rows
        resps).events ≤ st.max_retries) ∧
    (∀ (fuel : Nat) (st : ClientState) (itemId ws endCol : String)
      (rows : List (Nat × List JVal)) (r : Response) (rest : List Response),
      strContains r.text lockMarker = true → r.status = 200 →
      batchUpdateExcelRows (fuel + 1) st itemId ws rows endCol (r :: rest) =
        withEvents [.httpReq (batchUpdateRequest itemId ws rows endCol st),
            .sleepLock 10]
          (batchUpdateExcelRows fuel { st with max_retries := MAX_RETRIES - 1 }
            itemId ws rows endCol rest)) ∧
    (∀ (fuel : Nat) (st : ClientState) (itemId ws endCol : String)
      (rows : List (Nat × List JVal)) (r : Response) (rest : List Response),
      strContains r.text lockMarker = true → r.status ≠ 429 →
      r.status ≠ 200 →
      (batchUpdateExcelRows (fuel + 1) st itemId ws rows endCol
          (r :: rest)).outcome =
        .raised ("Failed to batch update Excel: " ++ r.text)) := by
  refine ⟨?_, ?_, ?_, ?_⟩
  · intro fuel st itemId tableName rows r rest hm hb hs
    have h4 : (r.status == 429) = false := by simpa using hs
    have hstep : appendRowsStep st r =
        .retry [.sleepLock 10] { st with max_retries := st.max_retries - 1 } := by
      simp [appendRowsStep, h4, hm, hb]
    exact runRetry_cons_retry _ _ fuel st r rest _ _ hstep
  · intro fuel st itemId tableName rows resps
    exact runRetry_lock_bounded _ _
      (by intro st' r evs st1 hstep
          rcases appendRowsStep_retry_inv st' r evs st1 hstep with
            ⟨t, hevs, hst1, hpos, _⟩ | ⟨hevs, hst1, hpos, _⟩ <;>
            subst hevs <;> subst hst1 <;> simp [lockSleepCount] <;> omega)
      fuel st resps
  · intro fuel st itemId ws endCol rows r rest hm hs
    have hstep : batchUpdateStep st r =
        .retry [.sleepLock 10] { st with max_retries := MAX_RETRIES - 1 } := by
      simp [batchUpdateStep, hs, hm, MAX_RETRIES]
    exact runRetry_cons_retry _ _ fuel st r rest _ _ hstep
  · intro fuel st itemId ws endCol rows r rest hm hs h200
    have h4 : (r.status == 429) = false := by simpa using hs
    have hstep : batchUpdateStep st r =
        .done (.raised ("Failed to batch update Excel: " ++ r.text)) st := by
      simp [batchUpdateStep, h4, h200]
    unfold batchUpdateExcelRows
    rw [runRetry_cons_done _ _ fuel st r rest _ _ hstep]

/-- Witness for C3 (amended): a 503 lock-contended response retries in
`append_rows_to_table` but raises in `batch_update_excel_rows`; and a
concrete append run's lock retries stay within the budget. -/
theorem claim_C3_lock_retry_witness :
    appendRowsToTable 2 ⟨"T", MAX_RETRIES⟩ "item" "Table1" [[]]
        [⟨503, none, lockBodyText, .ok lockBodyJson⟩] =
      withEvents [.httpReq (appendRowsRequest "item" "Table1" [[]]
          ⟨"T", MAX_RETRIES⟩), .sleepLock 10]
        (appendRowsToTable 1 ⟨"T", MAX_RETRIES - 1⟩ "item" "Table1" [[]] []) ∧
    lockSleepCount (appendRowsToTable 9 ⟨"T", MAX_RETRIES⟩ "item" "Table1"
        [[]] (List.replicate 5 ⟨503, none, lockBodyText,
          .ok lockBodyJson⟩)).events ≤ MAX_RETRIES ∧
    (batchUpdateExcelRows 2 ⟨"T", MAX_RETRIES⟩ "item" "ws" [] "D"
        [⟨503, none, lockBodyText, .ok lockBodyJson⟩]).outcome =
      .raised ("Failed to batch update Excel: " ++ lockBodyText) :=
  ⟨claim_C3_lock_retry.1 1 ⟨"T", MAX_RETRIES⟩ "item" "Table1" [[]]
      ⟨503, none, lockBodyText, .ok lockBodyJson⟩ [] rfl (by decide)
      (by decide),
    claim_C3_lock_retry.2.1 9 ⟨"T", MAX_RETRIES⟩ "item" "Table1" [[]]
      (List.replicate 5 ⟨503, none, lockBodyText, .ok lockBodyJson⟩),
    claim_C3_lock_retry.2.2.2 1 ⟨"T", MAX_RETRIES⟩ "item" "ws" "D" []
      ⟨503, none, lockBodyText, .ok lockBodyJson⟩ [] rfl (by decide)
      (by decide)⟩

/-- C4 counterexample: `send_email` is a remote operation, yet on a trace of
429 responses it raises at once — one request, no sleep, no retry — so the
claim's universal "every remote operation is retried exactly MAX_RETRIES
times" fails on it. -/
theorem claim_C4_counterexample :
    (sendEmail ⟨["u"], some ⟨some "F", none⟩, none⟩ ⟨"T", MAX_RETRIES⟩
        "r" "s" "b" true
        (List.replicate 4 ⟨429, some "5", "Too Many Requests",
          .ok (.jobj [])⟩)).outcome =
      .raised "Failed to send email: 429 Too Many Requests" ∧
    throttleSleepCount (sendEmail ⟨["u"], some ⟨some "F", none⟩, none⟩
        ⟨"T", MAX_RETRIES⟩ "r" "s" "b" true
        (List.replicate 4 ⟨429, some "5", "Too Many Requests",
          .ok (.jobj [])⟩)).events = 0 ∧
    (sendEmail ⟨["u"], some ⟨some "F", none⟩, none⟩ ⟨"T", MAX_RETRIES⟩
        "r" "s" "b" true
        (List.replicate 4 ⟨429, some "5", "Too Many Requests",
          .ok (.jobj [])⟩)).events.length = 1 :=
  ⟨rfl, rfl, rfl⟩

/-- C4 amended: with a full budget, each of the five retrying operations,
fed only 429 responses, performs exactly `MAX_RETRIES = 3` retries — sleeping
the parsed `Retry-After` delay before each (the parse sees `"30"` when the
header is absent) — and then surfaces the last response's body as a raised
error; `send_email`, however, raises on the first 429 with no retry at
all. -/
theorem claim_C4_throttle_bound :
    (∀ (tok itemId ws : String) (r0 r1 r2 r3 : Response)
      (rest : List Response) (fuel : Nat) (d0 d1 d2 d3 : JVal)
      (t0 t1 t2 : Int),
      isThrottle r0 t0 → isThrottle r1 t1 → isThrottle r2 t2 →
      r3.status = 429 →
      r0.jsonResult = .ok d0 → r1.jsonResult = .ok d1 →
      r2.jsonResult = .ok d2 → r3.jsonResult = .ok d3 →
      getExcelRows (fuel + 4) ⟨tok, MAX_RETRIES⟩ itemId ws
          (r0 :: r1 :: r2 :: r3 :: rest) =
        ⟨.raised ("Failed to get Excel rows: " ++ r3.text), ⟨tok, 0⟩,
          [.httpReq ⟨"GET", getExcelRowsUrl itemId ws, bearerHeaders tok,
            none⟩, .sleepThrottle t0,
           .httpReq ⟨"GET", getExcelRowsUrl itemId ws, bearerHeaders tok,
            none⟩, .sleepThrottle t1,
           .httpReq ⟨"GET", getExcelRowsUrl itemId ws, bearerHeaders tok,
            none⟩, .sleepThrottle t2,
           .httpReq ⟨"GET", getExcelRowsUrl itemId ws, bearerHeaders tok,
            none⟩]⟩) ∧
    (∀ (tok itemId ws endCol : String) (rows : List (Nat × List JVal))
      (r0 r1 r2 r3 : Response) (rest : List Response) (fuel : Nat)
      (t0 t1 t2 : Int),
      isThrottle r0 t0 → isThrottle r1 t1 → isThrottle r2 t2 →
      r3.status = 429 →
      batchUpdateExcelRows (fuel + 4) ⟨tok, MAX_RETRIES⟩ itemId ws rows
          endCol (r0 :: r1 :: r2 :: r3 :: rest) =
        ⟨.raised ("Failed to batch update Excel: " ++ r3.text), ⟨tok, 0⟩,
          [.httpReq ⟨"POST", "https://graph.microsoft.com/v1.0/$batch",
            bearerHeaders tok,
            some (.batch (buildBatchRequests itemId ws rows endCol))⟩,
           .sleepThrottle t0,
           .httpReq ⟨"POST", "https://graph.microsoft.com/v1.0/$batch",
            bearerHeaders tok,
            some (.batch (buildBatchRequests itemId ws rows endCol))⟩,
           .sleepThrottle t1,
           .httpReq ⟨"POST", "https://graph.microsoft.com/v1.0/$batch",
            bearerHeaders tok,
            some (.batch (buildBatchRequests itemId ws rows endCol))⟩,
           .sleepThrottle t2,
           .httpReq ⟨"POST", "https://graph.microsoft.com/v1.0/$batch",
            bearerHeaders tok,
            some (.batch (buildBatchRequests itemId ws rows endCol))⟩]⟩) ∧
    (∀ (tok itemId ws : String) (fields : JVal) (r0 r1 r2 r3 : Response)
      (rest : List Response) (fuel : Nat) (t0 t1 t2 : Int),
      isThrottle r0 t0 → isThrottle r1 t1 → isThrottle r2 t2 →
      r3.status = 429 →
      reorderExcelRows (fuel + 4) ⟨tok, MAX_RETRIES⟩ itemId ws fields
          (r0 :: r1 :: r2 :: r3 :: rest) =
        ⟨.raised ("Failed to reorder Excel rows: " ++ r3.text), ⟨tok, 0⟩,
          [.httpReq (reorderRequest itemId ws fields ⟨tok, MAX_RETRIES⟩),
           .sleepThrottle t0,
           .httpReq (reorderRequest itemId ws fields ⟨tok, MAX_RETRIES⟩),
           .sleepThrottle t1,
           .httpReq (reorderRequest itemId ws fields ⟨tok, MAX_RETRIES⟩),
           .sleepThrottle t2,
           .httpReq (reorderRequest itemId ws fields ⟨tok, MAX_RETRIES⟩)]⟩) ∧
    (∀ (tok itemId tableName : String) (rows : List (List JVal))
      (r0 r1 r2 r3 : Response) (rest : List Response) (fuel : Nat)
      (t0 t1 t2 : Int),
      isThrottle r0 t0 → isThrottle r1 t1 → isThrottle r2 t2 →
      r3.status = 429 → strContains r3.text lockMarker = false →
      appendRowsToTable (fuel + 4) ⟨tok, MAX_RETRIES⟩ itemId tableName rows
          (r0 :: r1 :: r2 :: r3 :: rest) =
        ⟨.raised ("Failed to append rows: " ++ r3.text), ⟨tok, 0⟩,
          [.httpReq (appendRowsRequest itemId tableName rows
            ⟨tok, MAX_RETRIES⟩), .sleepThrottle t0,
           .httpReq (appendRowsRequest itemId tableName rows
            ⟨tok, MAX_RETRIES⟩), .sleepThrottle t1,
           .httpReq (appendRowsRequest itemId tableName rows
            ⟨tok, MAX_RETRIES⟩), .sleepThrottle t2,
           .httpReq (appendRowsRequest itemId tableName rows
            ⟨tok, MAX_RETRIES⟩)]⟩) ∧
    (∀ (tok itemId : String) (r0 r1 r2 r3 : Response)
      (rest : List Response) (fuel : Nat) (t0 t1 t2 : Int),
      isThrottle r0 t0 → isThrottle r1 t1 → isThrottle r2 t2 →
      r3.status = 429 →
      listTables (fuel + 4) ⟨tok, MAX_RETRIES⟩ itemId
          (r0 :: r1 :: r2 :: r3 :: rest) =
        ⟨.raised ("Failed to list tables: " ++ r3.text), ⟨tok, 0⟩,
          [.httpReq (listTablesRequest itemId ⟨tok, MAX_RETRIES⟩),
           .sleepThrottle t0,
           .httpReq (listTablesRequest itemId ⟨tok, MAX_RETRIES⟩),
           .sleepThrottle t1,
           .httpReq (listTablesRequest itemId ⟨tok, MAX_RETRIES⟩),
           .sleepThrottle t2,
           .httpReq (listTablesRequest itemId ⟨tok, MAX_RETRIES⟩)]⟩) ∧
    (∀ (env : AuthEnv) (st st1 : ClientState)
      (hdrs : List (String × String)) (a b c : String) (s : Bool)
      (r : Response) (rest : List Response),
      authHeaders env st = .ok (hdrs, st1) → r.status = 429 →
      sendEmail env st a b c s (r :: rest) =
        ⟨.raised ("Failed to send email: " ++ toString r.status ++ " " ++
          r.text), st1,
          [.httpReq ⟨"POST", "https://graph.microsoft.com/v1.0/me/sendMail",
            hdrs, some (.email a b c s)⟩]⟩) ∧
    (∀ r : Response, r.retryAfter = none →
      pyInt (r.retryAfter.getD "30") = some 30) := by
  refine ⟨?_, ?_, ?_, ?_, ?_, ?_, ?_⟩
  · intro tok itemId ws r0 r1 r2 r3 rest fuel d0 d1 d2 d3 t0 t1 t2
      h0 h1 h2 hs3 hj0 hj1 hj2 hj3
    obtain ⟨hs0, ht0⟩ := h0
    obtain ⟨hs1, ht1⟩ := h1
    obtain ⟨hs2, ht2⟩ := h2
    simp [getExcelRows, runRetry, MAX_RETRIES, getExcelRowsStep,
      getExcelRowsRequest, hs0, hs1, hs2, hs3, hj0, hj1, hj2, hj3,
      ht0, ht1, ht2, withEvents]
  · intro tok itemId ws endCol rows r0 r1 r2 r3 rest fuel t0 t1 t2
      h0 h1 h2 hs3
    obtain ⟨hs0, ht0⟩ := h0
    obtain ⟨hs1, ht1⟩ := h1
    obtain ⟨hs2, ht2⟩ := h2
    simp [batchUpdateExcelRows, runRetry, MAX_RETRIES, batchUpdateStep,
      batchUpdateRequest, hs0, hs1, hs2, hs3, ht0, ht1, ht2, withEvents]
  · intro tok itemId ws fields r0 r1 r2 r3 rest fuel t0 t1 t2 h0 h1 h2 hs3
    obtain ⟨hs0, ht0⟩ := h0
    obtain ⟨hs1, ht1⟩ := h1
    obtain ⟨hs2, ht2⟩ := h2
    simp [reorderExcelRows, runRetry, MAX_RETRIES, reorderStep,
      reorderRequest, hs0, hs1, hs2, hs3, ht0, ht1, ht2, withEvents]
  · intro tok itemId tableName rows r0 r1 r2 r3 rest fuel t0 t1 t2
      h0 h1 h2 hs3 hm3
    obtain ⟨hs0, ht0⟩ := h0
    obtain ⟨hs1, ht1⟩ := h1
    obtain ⟨hs2, ht2⟩ := h2
    simp [appendRowsToTable, runRetry, MAX_RETRIES, appendRowsStep,
      appendRowsRequest, hs0, hs1, hs2, hs3, hm3, ht0, ht1, ht2, withEvents]
  · intro tok itemId r0 r1 r2 r3 rest fuel t0 t1 t2 h0 h1 h2 hs3
    obtain ⟨hs0, ht0⟩ := h0
    obtain ⟨hs1, ht1⟩ := h1
    obtain ⟨hs2, ht2⟩ := h2
    simp [listTables, runRetry, MAX_RETRIES, listTablesStep,
      listTablesRequest, hs0, hs1, hs2, hs3, ht0, ht1, ht2, withEvents]
  · intro env st st1 hdrs a b c s r rest hauth hs
    simp [sendEmail, hauth, hs]
  · intro r h
    rw [h]
    rfl

/-- Witness for C4 (amended): `list_tables` on four 429 responses — the
second with no `Retry-After` header, so its sleep is the default 30 — makes
exactly three retries then raises the last body. -/
theorem claim_C4_throttle_bound_witness :
    listTables 4 ⟨"T", MAX_RETRIES⟩ "item"
        [⟨429, some "5", "t0", .ok (.jobj [])⟩,
         ⟨429, none, "t1", .ok (.jobj [])⟩,
         ⟨429, some "7", "t2", .ok (.jobj [])⟩,
         ⟨429, some "1", "lastBody", .ok (.jobj [])⟩] =
      ⟨.raised "Failed to list tables: lastBody", ⟨"T", 0⟩,
        [.httpReq (listTablesRequest "item" ⟨"T", MAX_RETRIES⟩),
         .sleepThrottle 5,
         .httpReq (listTablesRequest "item" ⟨"T", MAX_RETRIES⟩),
         .sleepThrottle 30,
         .httpReq (listTablesRequest "item" ⟨"T", MAX_RETRIES⟩),
         .sleepThrottle 7,
         .httpReq (listTablesRequest "item" ⟨"T", MAX_RETRIES⟩)]⟩ :=
  claim_C4_throttle_bound.2.2.2.2.1 "T" "item"
    ⟨429, some "5", "t0", .ok (.jobj [])⟩
    ⟨429, none, "t1", .ok (.jobj [])⟩
    ⟨429, some "7", "t2", .ok (.jobj [])⟩
    ⟨429, some "1", "lastBody", .ok (.jobj [])⟩ [] 0 5 30 7
    ⟨rfl, rfl⟩ ⟨rfl, rfl⟩ ⟨rfl, rfl⟩ rfl

/-- C7 counterexample: two `get_excel_rows` calls answered with the same
body but different non-success statuses (500 and 403) raise the identical
error — so the raised error of this remote operation cannot carry the
response's status code (neither "500" nor "403" occurs in the message). -/
theorem claim_C7_counterexample :
    (getExcelRows 1 ⟨"T", MAX_RETRIES⟩ "item" "ws"
        [⟨500, none, "\x7b\x7d", .ok (.jobj [])⟩]).outcome =
      .raised "Failed to get Excel rows: \x7b\x7d" ∧
    (getExcelRows 1 ⟨"T", MAX_RETRIES⟩ "item" "ws"
        [⟨403, none, "\x7b\x7d", .ok (.jobj [])⟩]).outcome =
      .raised "Failed to get Excel rows: \x7b\x7d" ∧
    strContains "Failed to get Excel rows: \x7b\x7d" "500" = false ∧
    strContains "Failed to get Excel rows: \x7b\x7d" "403" = false :=
  ⟨rfl, rfl, rfl, rfl⟩

/-- C7 amended: a response that is non-success, non-throttled and
non-lock-contended makes every operation fail immediately — a single
request, no sleep, no retry, state unchanged — with an error carrying the
response's body text verbatim; but only `send_email`'s error also carries
the status code: the other five operations' messages contain the body text
only. -/
theorem claim_C7_error_surfacing :
    (∀ (fuel : Nat) (st : ClientState) (itemId ws : String) (r : Response)
      (rest : List Response) (d : JVal),
      r.status ≠ 200 → r.status ≠ 429 → r.jsonResult = .ok d →
      getExcelRows (fuel + 1) st itemId ws (r :: rest) =
        ⟨.raised ("Failed to get Excel rows: " ++ r.text), st,
          [.httpReq (getExcelRowsRequest itemId ws st)]⟩) ∧
    (∀ (fuel : Nat) (st : ClientState) (itemId ws endCol : String)
      (rows : List (Nat × List JVal)) (r : Response) (rest : List Response),
      r.status ≠ 200 → r.status ≠ 429 →
      batchUpdateExcelRows (fuel + 1) st itemId ws rows endCol (r :: rest) =
        ⟨.raised ("Failed to batch update Excel: " ++ r.text), st,
          [.httpReq (batchUpdateRequest itemId ws rows endCol st)]⟩) ∧
    (∀ (fuel : Nat) (st : ClientState) (itemId ws : String) (fields : JVal)
      (r : Response) (rest : List Response),
      r.status ≠ 200 → r.status ≠ 429 →
      reorderExcelRows (fuel + 1) st itemId ws fields (r :: rest) =
        ⟨.raised ("Failed to reorder Excel rows: " ++ r.text), st,
          [.httpReq (reorderRequest itemId ws fields st)]⟩) ∧
    (∀ (fuel : Nat) (st : ClientState) (itemId tableName : String)
      (rows : List (List JVal)) (r : Response) (rest : List Response),
      r.status ≠ 201 → r.status ≠ 429 →
      strContains r.text lockMarker = false →
      appendRowsToTable (fuel + 1) st itemId tableName rows (r :: rest) =
        ⟨.raised ("Failed to append rows: " ++ r.text), st,
          [.httpReq (appendRowsRequest itemId tableName rows st)]⟩) ∧
    (∀ (fuel : Nat) (st : ClientState) (itemId : String) (r : Response)
      (rest : List Response),
      r.status ≠ 200 → r.status ≠ 429 →
      listTables (fuel + 1) st itemId (r :: rest) =
        ⟨.raised ("Failed to list tables: " ++ r.text), st,
          [.httpReq (listTablesRequest itemId st)]⟩) ∧
    (∀ (env : AuthEnv) (st st1 : ClientState)
      (hdrs : List (String × String)) (a b c : String) (s : Bool)
      (r : Response) (rest : List Response),
      authHeaders env st = .ok (hdrs, st1) →
      r.status ≠ 200 → r.status ≠ 202 →
      sendEmail env st a b c s (r :: rest) =
        ⟨.raised ("Failed to send email: " ++ toString r.status ++ " " ++
          r.text), st1,
          [.httpReq ⟨"POST", "https://graph.microsoft.com/v1.0/me/sendMail",
            hdrs, some (.email a b c s)⟩]⟩) := by
  refine ⟨?_, ?_, ?_, ?_, ?_, ?_⟩
  · intro fuel st itemId ws r rest d h200 h429 hj
    exact runRetry_cons_done _ _ fuel st r rest _ _
      (by simp [getExcelRowsStep, hj, h200, h429])
  · intro fuel st itemId ws endCol rows r rest h200 h429
    exact runRetry_cons_done _ _ fuel st r rest _ _
      (by simp [batchUpdateStep, h200, h429])
  · intro fuel st itemId ws fields r rest h200 h429
    exact runRetry_cons_done _ _ fuel st r rest _ _
      (by simp [reorderStep, h200, h429])
  · intro fuel st itemId tableName rows r rest h201 h429 hm
    exact runRetry_cons_done _ _ fuel st r rest _ _
      (by simp [appendRowsStep, h201, h429, hm])
  · intro fuel st itemId r rest h200 h429
    exact runRetry_cons_done _ _ fuel st r rest _ _
      (by simp [listTablesStep, h200, h429])
  · intro env st st1 hdrs a b c s r rest hauth h200 h202
    simp [sendEmail, hauth, h200, h202]

/-- Witness for C7 (amended): a 500 response with body text `oops` makes
`list_tables` raise `Failed to list tables: oops` at once, and `send_email`
raise `Failed to send email: 500 oops`. -/
theorem claim_C7_error_surfacing_witness :
    listTables 3 ⟨"T", MAX_RETRIES⟩ "item"
        [⟨500, none, "oops", .ok .jnull⟩] =
      ⟨.raised "Failed to list tables: oops", ⟨"T", MAX_RETRIES⟩,
        [.httpReq (listTablesRequest "item" ⟨"T", MAX_RETRIES⟩)]⟩ ∧
    sendEmail ⟨["u"], some ⟨some "F", none⟩, none⟩ ⟨"T", MAX_RETRIES⟩
        "r" "s" "b" true [⟨500, none, "oops", .ok .jnull⟩] =
      ⟨.raised "Failed to send email: 500 oops", ⟨"F", MAX_RETRIES⟩,
        [.httpReq ⟨"POST", "https://graph.microsoft.com/v1.0/me/sendMail",
          bearerHeaders "F", some (.email "r" "s" "b" true)⟩]⟩ :=
  ⟨claim_C7_error_surfacing.2.2.2.2.1 2 ⟨"T", MAX_RETRIES⟩ "item"
      ⟨500, none, "oops", .ok .jnull⟩ [] (by decide) (by decide),
    by
      rw [claim_C7_error_surfacing.2.2.2.2.2
        ⟨["u"], some ⟨some "F", none⟩, none⟩ ⟨"T", MAX_RETRIES⟩
        ⟨"F", MAX_RETRIES⟩ (bearerHeaders "F") "r" "s" "b" true
        ⟨500, none, "oops", .ok .jnull⟩ [] rfl (by decide) (by decide)]
      rfl⟩
